import Mathlib

/-!
Verification development for the `autoFormFiled` form-filling engine
(`src/browser_use/modules/`).  The Python modules are shallowly embedded:
pure helpers (`utils.py`, the synonym tables of `form_filler.py`, the field
classifier) become Lean functions on `String`/`List Char`; the Playwright
page is abstracted by an oracle that answers each page primitive either
with a value or with an exception, and the async fillers become programs
in a small state monad over that oracle which also records a trace of the
page operations they perform.
-/

namespace AutoForm

/-! ## Python string primitives

Models of the Python `str` operations used by the sources.  `str.lower`
is modelled for the ASCII range (`Char.toLower`), which covers every
comparison exercised by the theorems below.
-/

/-- `b` is a prefix of `a` (Boolean, structural). -/
def isPrefixList : List Char → List Char → Bool
  | [], _ => true
  | _ :: _, [] => false
  | a :: as, b :: bs => a == b && isPrefixList as bs

/-- Python `needle in hay` on strings: substring containment
(the empty needle is contained in everything). -/
def containsList (needle : List Char) : List Char → Bool
  | [] => needle.isEmpty
  | c :: t => isPrefixList needle (c :: t) || containsList needle t

/-- Python `needle in hay` for `String`. -/
def pyIn (needle hay : String) : Bool := containsList needle.data hay.data

/-- Python `s.startswith(p)`. -/
def pyStartsWith (s p : String) : Bool := isPrefixList p.data s.data

/-- Python `s.endswith(p)`. -/
def pyEndsWith (s p : String) : Bool := isPrefixList p.data.reverse s.data.reverse

/-- Python `s.lower()` (ASCII model). -/
def pyLower (s : String) : String := ⟨s.data.map Char.toLower⟩

/-- Characters stripped by Python `str.strip()`. -/
def isPySpace (c : Char) : Bool :=
  c == ' ' || c == '\t' || c == '\n' || c == '\r' || c == '\x0b' || c == '\x0c'

/-- Python `s.strip()`. -/
def pyStrip (s : String) : String :=
  ⟨((s.data.dropWhile isPySpace).reverse.dropWhile isPySpace).reverse⟩

/-- Python `s.split(sep)` for a single-character separator. -/
def splitOnChar (sep : Char) : List Char → List (List Char)
  | [] => [[]]
  | c :: t =>
    if c == sep then [] :: splitOnChar sep t
    else
      match splitOnChar sep t with
      | h :: r => (c :: h) :: r
      | [] => [[c]]

/-- Python `s.find(sub)`: index of the first occurrence, or `none`. -/
def findSub (sub : List Char) : List Char → Option Nat
  | [] => if sub.isEmpty then some 0 else none
  | c :: t =>
    if isPrefixList sub (c :: t) then some 0
    else (findSub sub t).map (· + 1)

/-- Python `s.replace(old, new)` (all occurrences; `old` nonempty at the
call sites modelled here), scanning one character at a time: a match
emits `new` and sets a skip counter for the rest of the occurrence, so
the recursion is structural in the input (and kernel-reducible). -/
def pyReplaceGo (old new : List Char) : Nat → List Char → List Char
  | _, [] => []
  | skip + 1, _ :: t => pyReplaceGo old new skip t
  | 0, c :: t =>
    if isPrefixList old (c :: t) && !old.isEmpty then
      new ++ pyReplaceGo old new (old.length - 1) t
    else c :: pyReplaceGo old new 0 t

/-- Python `s.replace(old, new)`. -/
def pyReplace (old new : List Char) (l : List Char) : List Char :=
  pyReplaceGo old new 0 l

/-- Python `s.isdigit()` (ASCII model): nonempty and all digits. -/
def pyIsDigit (s : String) : Bool := !s.data.isEmpty && s.data.all Char.isDigit

/-- Value of a digit character. -/
def digitVal (c : Char) : Nat := c.toNat - '0'.toNat

/-- Decimal value of a digit list (most significant first). -/
def digitsVal (l : List Char) : Nat := l.foldl (fun a c => 10 * a + digitVal c) 0

/-- Boolean range test on characters. -/
def charBetween (lo hi c : Char) : Bool :=
  decide (lo.toNat ≤ c.toNat ∧ c.toNat ≤ hi.toNat)

/-- Python `int(s)` on strings: optional sign after stripped spaces,
then one or more digits (underscore grouping not modelled). -/
def pyParseInt (s : String) : Option Int :=
  let t := (pyStrip s).data
  let core : List Char → Option Nat := fun l =>
    if l.isEmpty then none
    else if l.all Char.isDigit then some (digitsVal l) else none
  match t with
  | '+' :: rest => (core rest).map Int.ofNat
  | '-' :: rest => (core rest).map (fun n => -(Int.ofNat n))
  | _ => (core t).map Int.ofNat

/-- Python `str(i)` for integers. -/
def pyIntToStr (i : Int) : String :=
  if i < 0 then "-" ++ toString i.natAbs else toString i.natAbs

/-! ## `utils.py` — `normalize_date`

`normalize_date` first tries three regular expressions
(`^\d{4}-\d{2}-\d{2}$`, `^\d{2}\.\d{2}\.\d{4}$`, `^\d{4}$`) and finally
`datetime.strptime(date_value, '%Y-%m-%d')`.
-/

/-- Regex `^\d{4}-\d{2}-\d{2}$`. -/
def matchYMD (l : List Char) : Bool :=
  match l with
  | [a, b, c, d, e, f, g, h, i, j] =>
    a.isDigit && b.isDigit && c.isDigit && d.isDigit && e == '-' &&
    f.isDigit && g.isDigit && h == '-' && i.isDigit && j.isDigit
  | _ => false

/-- Regex `^\d{2}\.\d{2}\.\d{4}$`. -/
def matchDMY (l : List Char) : Bool :=
  match l with
  | [a, b, c, d, e, f, g, h, i, j] =>
    a.isDigit && b.isDigit && c == '.' && d.isDigit && e.isDigit && f == '.' &&
    g.isDigit && h.isDigit && i.isDigit && j.isDigit
  | _ => false

/-- Regex `^\d{4}$`. -/
def matchY4 (l : List Char) : Bool :=
  match l with
  | [a, b, c, d] => a.isDigit && b.isDigit && c.isDigit && d.isDigit
  | _ => false

/-- CPython `_strptime` directive `%m`: regex `(1[0-2]|0[1-9]|[1-9])`,
leftmost alternative first. -/
def parseMonthChars : List Char → Option (Nat × List Char)
  | [] => none
  | c1 :: rest1 =>
    match rest1 with
    | c2 :: rest2 =>
      if c1 == '1' && charBetween '0' '2' c2 then some (10 + digitVal c2, rest2)
      else if c1 == '0' && charBetween '1' '9' c2 then some (digitVal c2, rest2)
      else if charBetween '1' '9' c1 then some (digitVal c1, rest1)
      else none
    | [] => if charBetween '1' '9' c1 then some (digitVal c1, []) else none

/-- CPython `_strptime` directive `%d`: regex `(3[01]|[12]\d|0[1-9]|[1-9])`. -/
def parseDayChars : List Char → Option (Nat × List Char)
  | [] => none
  | c1 :: rest1 =>
    match rest1 with
    | c2 :: rest2 =>
      if c1 == '3' && charBetween '0' '1' c2 then some (30 + digitVal c2, rest2)
      else if charBetween '1' '2' c1 && c2.isDigit then
        some (10 * digitVal c1 + digitVal c2, rest2)
      else if c1 == '0' && charBetween '1' '9' c2 then some (digitVal c2, rest2)
      else if charBetween '1' '9' c1 then some (digitVal c1, rest1)
      else none
    | [] => if charBetween '1' '9' c1 then some (digitVal c1, []) else none

/-- The `%Y-%m-%d` pattern: four digit year, `-`, month, `-`, day, and
nothing left over (`_strptime` raises on unconverted trailing data). -/
def parseYmdChars (l : List Char) : Option (Nat × Nat × Nat) :=
  match l with
  | y1 :: y2 :: y3 :: y4 :: d1 :: rest =>
    if y1.isDigit && y2.isDigit && y3.isDigit && y4.isDigit && d1 == '-' then
      match parseMonthChars rest with
      | some (m, rest2) =>
        match rest2 with
        | d2 :: rest3 =>
          if d2 == '-' then
            match parseDayChars rest3 with
            | some (d, []) => some (digitsVal [y1, y2, y3, y4], m, d)
            | _ => none
          else none
        | [] => none
      | none => none
    else none
  | _ => none

/-- Gregorian leap-year rule used by `datetime`. -/
def isLeap (y : Nat) : Bool := y % 4 == 0 && (y % 100 != 0 || y % 400 == 0)

/-- Days in a month, as validated by the `datetime` constructor. -/
def daysInMonth (y m : Nat) : Nat :=
  if m == 2 then (if isLeap y then 29 else 28)
  else if m == 4 || m == 6 || m == 9 || m == 11 then 30
  else 31

/-- `datetime.strptime(s, '%Y-%m-%d')` succeeding: pattern match plus the
`datetime` constructor's calendar validation (year ≥ 1, valid day). -/
def strptimeParse (l : List Char) : Option (Nat × Nat × Nat) :=
  match parseYmdChars l with
  | some (y, m, d) =>
    if 1 ≤ y && d ≤ daysInMonth y m then some (y, m, d) else none
  | none => none

/-- Two-digit zero padding (`%m`, `%d`). -/
def pad2 (n : Nat) : String := if n < 10 then "0" ++ toString n else "" ++ toString n

/-- `strftime('%Y-%m-%d')`; `%Y` is not zero-padded by glibc `strftime`,
which CPython delegates to. -/
def fmtYmd (y m d : Nat) : String := toString y ++ "-" ++ pad2 m ++ "-" ++ pad2 d

/-- `utils.normalize_date`: normalize a date string to `YYYY-MM-DD`.
The `DD.MM.YYYY` branch rearranges the `split('.')` parts without any
calendar validation; unmatched and unparseable inputs are returned
unchanged (the bare `except` swallows the `strptime` failure). -/
def normalize_date (s : String) : String :=
  if s.data.isEmpty then ""
  else if matchYMD s.data then s
  else if matchDMY s.data then
    -- parts = date_value.split('.'); f"{parts[2]}-{parts[1]}-{parts[0]}"
    let parts := splitOnChar '.' s.data
    ⟨(parts.getD 2 []) ++ '-' :: (parts.getD 1 []) ++ '-' :: (parts.getD 0 [])⟩
  else if matchY4 s.data then s ++ "-01-01"
  else
    match strptimeParse s.data with
    | some (y, m, d) => fmtYmd y m d
    | none => s

/-- `utils.get_date_formats`: the three textual formats tried by the date
filler; `int(day)`/`int(month)` drop leading zeros. -/
def get_date_formats (year month day : String) (dayNum monthNum : Int) : List String :=
  [pyIntToStr dayNum ++ "." ++ pyIntToStr monthNum ++ "." ++ year,
   day ++ "." ++ month ++ "." ++ year,
   year ++ "-" ++ month ++ "-" ++ day]

/-- `utils.validate_date`: check a re-read widget value against the
intended date (full normalization match, component match, or one of the
common textual formats as a substring). -/
def validate_date (currentValue expectedDate year month day : String)
    (dayNum monthNum : Int) : Bool :=
  if currentValue.data.isEmpty then false
  else
    let normalizedCurrent := normalize_date currentValue
    if normalizedCurrent == expectedDate then true
    else
      let parts := splitOnChar '-' normalizedCurrent.data
      if parts.length == 3 &&
          (⟨parts.getD 0 []⟩ : String) == year &&
          (⟨parts.getD 1 []⟩ : String) == month &&
          (⟨parts.getD 2 []⟩ : String) == day then true
      else if pyIn (pyIntToStr dayNum ++ "." ++ pyIntToStr monthNum ++ "." ++ year) currentValue ||
          pyIn (day ++ "." ++ month ++ "." ++ year) currentValue then true
      else if pyIn (pyIntToStr dayNum ++ "/" ++ pyIntToStr monthNum ++ "/" ++ year) currentValue ||
          pyIn (day ++ "/" ++ month ++ "/" ++ year) currentValue then true
      else false

/-! ## `utils.py` — `resolve_file_path`

POSIX path model.  `Path.resolve()` is modelled as absolutization
against the working directory followed by lexical normalization
(`.` and `..` components removed); symbolic links are outside the model.
-/

/-- Is the path absolute (`os.path.isabs`, POSIX)? -/
def isAbsPath (p : String) : Bool := pyStartsWith p "/"

/-- Lexical normalization of an absolute POSIX path. -/
def normAbsPath (p : String) : String :=
  let comps := (splitOnChar '/' p.data).foldl
    (fun acc c =>
      if c.isEmpty || c == ['.'] then acc
      else if c == ['.', '.'] then acc.dropLast
      else acc ++ [c])
    ([] : List (List Char))
  if comps.isEmpty then "/"
  else ⟨comps.foldl (fun a c => a ++ '/' :: c) []⟩

/-- `Path(p).resolve()` for the no-symlink model. -/
def posixResolve (cwd p : String) : String :=
  if isAbsPath p then normAbsPath p else normAbsPath (cwd ++ "/" ++ p)

/-- `utils.resolve_file_path`: absolute paths are returned as-is; relative
paths are joined to `base_dir` (or, when `base_dir` is falsy, to the
package parent directory `Path(__file__).parent.parent`, here the
parameter `fileParentParent`) and resolved against the working
directory `cwd`. -/
def resolve_file_path (filePath : String) (baseDir : Option String)
    (cwd fileParentParent : String) : String :=
  if filePath.data.isEmpty then ""
  else if isAbsPath filePath then filePath
  else
    let base := match baseDir with
      | some b => if b.data.isEmpty then fileParentParent else b
      | none => fileParentParent
    posixResolve cwd (base ++ "/" ++ filePath)

/-! ## `form_filler.py` — the value resolver

`FormFiller._get_config_value_for_field` maps a field's lowered
name/id/label through two ordered synonym tables (a talent-pool table,
checked first when the `talent_pool` config section is non-empty, and the
general table).  Configuration sections are JSON objects; they are
modelled as ordered association lists of Python-like values.
-/

/-- A JSON-ish Python value as stored in the configuration. -/
inductive PyVal where
  | pnone
  | pstr (s : String)
  | plist (xs : List String)
  | pbool (b : Bool)
  deriving DecidableEq, Repr

/-- Python truthiness for the modelled values. -/
def pyTruthy : PyVal → Bool
  | .pnone => false
  | .pstr s => !s.data.isEmpty
  | .plist xs => !xs.isEmpty
  | .pbool b => b

/-- Python `a or b`. -/
def pyOr (a b : PyVal) : PyVal := if pyTruthy a then a else b

/-- A configuration section (`personal_info`, `file_paths`, …). -/
abbrev Section' := List (String × PyVal)

/-- Python `section.get(key)` (missing keys give `None`). -/
def pyGet (sec : Section') (key : String) : PyVal :=
  (sec.lookup key).getD .pnone

/-- First of two optional results. -/
def firstOf (a b : Option PyVal) : Option PyVal :=
  match a with
  | some v => some v
  | none => b

/-- `if key in mappings: value = mappings[key]; if value: return value`
falling through otherwise. -/
def checkKey (k : String) (m : List (String × PyVal)) : Option PyVal :=
  match m.lookup k with
  | some v => if pyTruthy v then some v else none
  | none => none

/-- Metadata of a form field as assembled by `_get_field_info`. -/
structure FieldInfo where
  name : Option String := none
  id : Option String := none
  placeholder : Option String := none
  label : Option String := none

/-- The general synonym table (`field_mappings` literal).  The key
`'anschreiben'` appears twice in the Python dict literal (once with the
cover-letter file and once with the comment); dict semantics keep the
first position with the last value, which is what this list records. -/
def fieldMappings (pi fp q tp : Section') : List (String × PyVal) :=
  [("first_name", pyGet pi "first_name"),
   ("firstname", pyGet pi "first_name"),
   ("vorname", pyGet pi "first_name"),
   ("first name", pyGet pi "first_name"),
   ("given-name", pyGet pi "first_name"),
   ("last_name", pyGet pi "last_name"),
   ("lastname", pyGet pi "last_name"),
   ("nachname", pyGet pi "last_name"),
   ("last name", pyGet pi "last_name"),
   ("family-name", pyGet pi "last_name"),
   ("email", pyGet pi "email"),
   ("e-mail", pyGet pi "email"),
   ("phone", pyGet pi "phone"),
   ("telephone", pyGet pi "phone"),
   ("telefon", pyGet pi "phone"),
   ("tel", pyGet pi "phone"),
   ("date_of_birth", pyOr (pyGet pi "date_of_birth") (pyGet pi "birth_date")),
   ("birth_date", pyOr (pyGet pi "date_of_birth") (pyGet pi "birth_date")),
   ("geburtsdatum", pyOr (pyGet pi "date_of_birth") (pyGet pi "birth_date")),
   ("birth date", pyOr (pyGet pi "date_of_birth") (pyGet pi "birth_date")),
   ("date of birth", pyOr (pyGet pi "date_of_birth") (pyGet pi "birth_date")),
   ("birthdate", pyOr (pyGet pi "date_of_birth") (pyGet pi "birth_date")),
   ("birth_year", pyGet pi "birth_year"),
   ("year", pyGet pi "birth_year"),
   ("geburtsjahr", pyGet pi "birth_year"),
   ("gender", pyGet pi "gender"),
   ("sex", pyGet pi "gender"),
   ("geschlecht", pyGet pi "gender"),
   ("country", pyGet pi "country"),
   ("land", pyGet pi "country"),
   ("standort", pyOr (pyGet pi "location") (pyGet q "preferred_location")),
   ("resume", pyOr (pyGet fp "resume") (pyGet fp "cv")),
   ("cv", pyOr (pyGet fp "resume") (pyGet fp "cv")),
   ("lebenslauf", pyOr (pyGet fp "resume") (pyGet fp "cv")),
   ("lebenslauf / cv", pyOr (pyGet fp "resume") (pyGet fp "cv")),
   ("file-upload", pyOr (pyGet fp "resume") (pyGet fp "cv")),
   ("file_app_map", pyOr (pyGet fp "resume") (pyGet fp "cv")),
   ("wbnformextension[]", pyOr (pyGet fp "resume") (pyGet fp "cv")),
   ("wbn-form-extension", pyOr (pyGet fp "resume") (pyGet fp "cv")),
   ("cover_letter", pyGet fp "cover_letter"),
   ("motivationsschreiben", pyGet fp "cover_letter"),
   ("anschreiben", pyGet pi "comment"),
   ("file_cover_letter", pyGet fp "cover_letter"),
   ("photo", pyGet fp "photo"),
   ("profile", pyGet fp "photo"),
   ("profile_picture", pyGet fp "photo"),
   ("profile picture", pyGet fp "photo"),
   ("foto", pyGet fp "photo"),
   ("bild", pyGet fp "photo"),
   ("profilbild", pyGet fp "photo"),
   ("profil bild", pyGet fp "photo"),
   ("file_photo", pyGet fp "photo"),
   ("job_experience", pyOr (pyGet pi "job_experience") (pyGet q "job_experience")),
   ("professional experience", pyOr (pyGet pi "job_experience") (pyGet q "job_experience")),
   ("berufserfahrung", pyOr (pyGet pi "job_experience") (pyGet q "job_experience")),
   ("experience", pyOr (pyGet pi "job_experience") (pyGet q "job_experience")),
   ("career_levels", if tp.isEmpty then .pnone else pyGet tp "career_levels"),
   ("karrierestufe", if tp.isEmpty then .pnone else pyGet tp "career_levels"),
   ("location", pyOr (pyGet pi "location") (pyGet q "preferred_location")),
   ("city", pyOr (pyGet pi "location") (pyGet q "preferred_location")),
   ("stadt", pyOr (pyGet pi "location") (pyGet q "preferred_location")),
   ("ort", pyOr (pyGet pi "location") (pyGet q "preferred_location")),
   ("preferred_location", pyOr (pyGet q "preferred_location") (pyGet pi "location")),
   ("address", pyGet pi "address"),
   ("adresse", pyGet pi "address"),
   ("street", pyGet pi "street"),
   ("straße", pyGet pi "street"),
   ("postcode", pyGet pi "postcode"),
   ("postal_code", pyGet pi "postcode"),
   ("zip", pyGet pi "postcode"),
   ("zipcode", pyGet pi "postcode"),
   ("postleitzahl", pyGet pi "postcode"),
   ("plz", pyGet pi "postcode"),
   ("german_knowledge", pyGet pi "german_knowledge"),
   ("deutsch", pyGet pi "german_knowledge"),
   ("german", pyGet pi "german_knowledge"),
   ("german_level", pyOr (pyGet q "german_level") (pyGet pi "german_knowledge")),
   ("deutschkenntnisse", pyOr (pyGet q "german_level") (pyGet pi "german_knowledge")),
   ("english_knowledge", pyGet pi "english_knowledge"),
   ("englisch", pyGet pi "english_knowledge"),
   ("english", pyGet pi "english_knowledge"),
   ("graduation", pyGet pi "graduation"),
   ("highest degree", pyGet pi "graduation"),
   ("höchster abschluss", pyGet pi "graduation"),
   ("höchster_abschluss", pyGet pi "graduation"),
   ("degree", pyGet pi "graduation"),
   ("abschluss", pyGet pi "graduation"),
   ("graduated_as", pyGet pi "graduated_as"),
   ("university degree as", pyGet pi "graduated_as"),
   ("hochschulabschluss als", pyGet pi "graduated_as"),
   ("degree as", pyGet pi "graduated_as"),
   ("studienfach", pyGet pi "graduated_as"),
   ("vocational_training", pyGet pi "vocational_training"),
   ("berufsausbildung", pyGet pi "vocational_training"),
   ("vocational training", pyGet pi "vocational_training"),
   ("comment", pyGet pi "comment"),
   ("kommentar", pyGet pi "comment"),
   ("comments", pyGet pi "comment"),
   ("cover_letter_text", pyOr (pyGet pi "comment") (pyGet pi "cover_letter_text")),
   ("salary", pyGet q "salary"),
   ("gehalt", pyGet q "salary"),
   ("remote_work", pyGet q "remote_work"),
   ("home_office", pyGet q "remote_work"),
   ("earliest_start", pyGet q "earliest_start"),
   ("earliest_start_date", pyGet q "earliest_start_date"),
   ("start_date", pyGet q "earliest_start_date")]

/-- The talent-pool synonym table (`talent_pool_mappings` literal). -/
def talentPoolMappings (tp : Section') : List (String × PyVal) :=
  [("job_title", pyGet tp "job_title"),
   ("wunschberuf", pyGet tp "job_title"),
   ("location", pyGet tp "location"),
   ("search_geo", pyGet tp "location"),
   ("wunschort", pyGet tp "location"),
   ("radius", pyGet tp "radius"),
   ("geo_radius", pyGet tp "radius"),
   ("salary", pyGet tp "salary"),
   ("gehaltswunsch", pyGet tp "salary"),
   ("salary_currency", pyGet tp "salary_currency"),
   ("salary_type", pyGet tp "salary_type"),
   ("job_time_model", pyGet tp "job_time_model"),
   ("arbeitszeit", pyGet tp "job_time_model"),
   ("job_categories", pyGet tp "job_categories"),
   ("kategorie", pyGet tp "job_categories"),
   ("career_levels", pyGet tp "career_levels"),
   ("karrierestufe", pyGet tp "career_levels")]

/-- Talent-pool label matching: the first table key that is a substring
of the label and carries a truthy value wins. -/
def tpLabelLookup (label : String) : List (String × PyVal) → Option PyVal
  | [] => none
  | (key, value) :: rest =>
    if pyIn key label && pyTruthy value then some value
    else tpLabelLookup label rest

/-- Values excluded from partial label matching: strings that look like
configured file paths (`'./doc/'`, `'.pdf'`, `'.jpg'`, `'.jpeg'`). -/
def isFileLikeStr (s : String) : Bool :=
  pyIn "./doc/" s || pyIn ".pdf" s || pyIn ".jpg" s || pyIn ".jpeg" s

/-- `isinstance(value, str) and (...)`: should this mapping value be
skipped by the label-based partial matching? -/
def valueSkipsLabelMatch : PyVal → Bool
  | .pstr s => isFileLikeStr s
  | _ => false

/-- One key's match test in the general partial-label loop: exact
equality, or an occurrence bounded by a space or the label's edges. -/
def labelBoundaryMatch (lowerKey lowerLabel : String) : Bool :=
  lowerLabel == lowerKey ||
  (pyStartsWith lowerLabel (lowerKey ++ " ") ||
   pyEndsWith lowerLabel (" " ++ lowerKey) ||
   (findSub (' ' :: (lowerKey.data ++ [' '])) lowerLabel.data).isSome)

/-- The general partial-label matching loop: skip falsy values and
file-like string values; return the first remaining key that matches the
label at a word boundary. -/
def labelPartialLookup (lowerLabel : String) : List (String × PyVal) → Option PyVal
  | [] => none
  | (key, value) :: rest =>
    if !pyTruthy value then labelPartialLookup lowerLabel rest
    else if valueSkipsLabelMatch value then labelPartialLookup lowerLabel rest
    else if labelBoundaryMatch (pyLower key) lowerLabel then some value
    else labelPartialLookup lowerLabel rest

/-- `FormFiller._get_config_value_for_field`: resolve a field's
configuration value from its (lowered) name, id and label, trying the
talent-pool table (name, id, substring label) when the `talent_pool`
section is non-empty, then the general table (name, id, exact label,
partial label). -/
def getConfigValueForField (fieldInfo : FieldInfo)
    (personalInfo filePaths questions talentPool : Section') : Option PyVal :=
  let fieldName := pyLower (fieldInfo.name.getD "")
  let fieldId := pyLower (fieldInfo.id.getD "")
  let label := pyLower (fieldInfo.label.getD "")
  let fm := fieldMappings personalInfo filePaths questions talentPool
  let tpBlock : Option PyVal :=
    if !talentPool.isEmpty then
      let tpm := talentPoolMappings talentPool
      firstOf (checkKey fieldName tpm)
        (firstOf (checkKey fieldId tpm)
          (if !label.data.isEmpty then tpLabelLookup label tpm else none))
    else none
  firstOf tpBlock
    (firstOf (checkKey fieldName fm)
      (firstOf (checkKey fieldId fm)
        (if !label.data.isEmpty then
          let lowerLabel := pyStrip (pyLower label)
          firstOf (checkKey lowerLabel fm) (labelPartialLookup lowerLabel fm)
         else none)))

/-! ## `field_detector.py` — `FieldDetector.detect_type`

The element attributes read by `detect_type`, together with the results
of its three fixed DOM-probing scripts, are captured in an `Elem` record;
`detect_type` itself is then a pure decision cascade.  (The enclosing
`try/except` only turns page-communication failures into `'unknown'` and
has no counterpart in the pure model.)
-/

/-- Truthiness of an optional attribute string (absent or empty ⇒ falsy). -/
def optTruthy : Option String → Bool
  | some s => !s.data.isEmpty
  | none => false

/-- An element as observed by `detect_type`: its attributes plus the
results of the three DOM queries it can run. -/
structure Elem where
  tag : String
  typeAttr : Option String := none
  classAttr : Option String := none
  idAttr : Option String := none
  role : Option String := none
  contenteditable : Option String := none
  dataFieldType : Option String := none
  dataPlaceholder : Option String := none
  ariaAutocomplete : Option String := none
  ariaControls : Option String := none
  ariaHaspopup : Option String := none
  /-- `container.querySelector('select.form--hidden, select[class*="hidden"],
  select[style*="display: none"], select[style*="display:none"]')` found one. -/
  containerHasFormHiddenSelect : Bool := false
  /-- `container.querySelector('select[aria-hidden="true"], select[style*=
  "position: absolute"], select[style*="position:absolute"],
  select[style*="clip: rect"]')` found one. -/
  containerHasAriaHiddenSelect : Bool := false
  /-- `document.querySelector('bw-popover, bw-select-menu')` found one. -/
  docHasBwPopover : Bool := false

/-- Does the optional attribute contain the substring? (`x and 'sub' in x`.) -/
def optContains (o : Option String) (sub : String) : Bool :=
  match o with
  | some s => pyIn sub s
  | none => false

/-- `FieldDetector.detect_type`. -/
def detect_type (e : Elem) : String :=
  if e.tag == "select" then "select"
  else if e.tag == "textarea" then "textarea"
  else if e.tag == "div" &&
      (optContains (e.classAttr.map pyLower) "dropzone" ||
       optContains (e.classAttr.map pyLower) "drop-zone" ||
       optContains (e.idAttr.map pyLower) "dropzone" ||
       optContains (e.idAttr.map pyLower) "drop-zone") then "file"
  else if e.tag == "input" then
    if e.typeAttr == some "hidden" || e.typeAttr == some "submit" ||
        e.typeAttr == some "button" then "hidden"
    else if e.typeAttr == some "file" then "file"
    else if e.typeAttr == some "date" || e.typeAttr == some "datetime-local" then "date"
    else if e.typeAttr == some "time" then "time"
    else if e.typeAttr == some "email" then "email"
    else if e.typeAttr == some "tel" then "tel"
    else if e.typeAttr == some "url" then "url"
    else if e.typeAttr == some "radio" then "radio"
    else if e.typeAttr == some "checkbox" then "checkbox"
    else if e.typeAttr == some "number" then "number"
    else if e.typeAttr == some "password" then "password"
    else if e.typeAttr == some "range" then "range"
    else if e.typeAttr == some "text" && optTruthy e.dataPlaceholder &&
        e.containerHasFormHiddenSelect then "select"
    else if optTruthy e.dataFieldType &&
        (e.dataFieldType == some "email" || e.dataFieldType == some "tel" ||
         e.dataFieldType == some "url" || e.dataFieldType == some "number" ||
         e.dataFieldType == some "date" || e.dataFieldType == some "text" ||
         e.dataFieldType == some "password") then e.dataFieldType.getD ""
    else if e.contenteditable == some "true" ||
        (optTruthy e.classAttr &&
         (optContains e.classAttr "ql-editor" ||
          optContains e.classAttr "mce-content-body")) then "richtext"
    else if e.role == some "combobox" && e.containerHasAriaHiddenSelect then "select"
    else if e.role == some "combobox" &&
        (e.docHasBwPopover || optTruthy e.ariaControls ||
         optTruthy e.ariaHaspopup) then "select"
    else if e.role == some "combobox" || e.role == some "searchbox" ||
        e.ariaAutocomplete == some "list" || e.ariaAutocomplete == some "both" ||
        (optTruthy e.classAttr &&
         (optContains e.classAttr "autocomplete" ||
          optContains e.classAttr "typeahead" ||
          optContains e.classAttr "selectize")) then "autocomplete"
    else if e.role == some "textbox" && e.contenteditable == some "true" then "richtext"
    else if e.role == some "spinbutton" then "number"
    else if e.role == some "slider" then "range"
    else if e.role == some "switch" then "checkbox"
    else if optTruthy e.classAttr &&
        (optContains e.classAttr "datepicker" || optContains e.classAttr "date-picker" ||
         optContains e.classAttr "calendar" || optContains e.classAttr "flatpickr" ||
         optContains e.classAttr "air-datepicker" ||
         optContains e.classAttr "react-datepicker") then "date"
    else if optTruthy e.classAttr &&
        (optContains e.classAttr "toggle" || optContains e.classAttr "switch") then "checkbox"
    else "text"
  else if e.tag == "div" then
    if e.role == some "textbox" && e.contenteditable == some "true" then "richtext"
    else if e.role == some "combobox" || e.role == some "listbox" then "select"
    else if e.role == some "slider" then "range"
    else if e.contenteditable == some "true" ||
        (optTruthy e.classAttr &&
         (optContains e.classAttr "ql-editor" ||
          optContains e.classAttr "mce-content-body" ||
          optContains e.classAttr "ck-content")) then "richtext"
    else if optTruthy e.classAttr &&
        (optContains e.classAttr "tagify" || optContains e.classAttr "multiselect" ||
         optContains e.classAttr "selectize") then "select"
    else roleFallback e
  else roleFallback e
where
  /-- The trailing role map / iframe / unknown fallback. -/
  roleFallback (e : Elem) : String :=
    if optTruthy e.role then
      if e.role == some "textbox" then "text"
      else if e.role == some "combobox" then "autocomplete"
      else if e.role == some "listbox" then "select"
      else if e.role == some "searchbox" then "autocomplete"
      else if e.role == some "spinbutton" then "number"
      else if e.role == some "slider" then "range"
      else if e.role == some "checkbox" then "checkbox"
      else if e.role == some "radio" then "radio"
      else if e.role == some "switch" then "checkbox"
      else if e.tag == "iframe" then "richtext"
      else "unknown"
    else if e.tag == "iframe" then "richtext"
    else "unknown"

/-! ## `form_filler.py` — the required-checkbox sweep

`FormFiller._check_all_checkboxes` harvests every visible checkbox-like
control with a page script, sorts the records required-first, and walks
them with skip rules, selector resolution and a forced-check ladder.
The page is modelled as a list of checkbox elements in document order;
the write primitives are modelled as succeeding deterministically
(`check(force=True)` ends with the element checked, the custom-widget
script sets `aria-checked='true'`), which is the successful-write case
of the retry ladder.
-/

/-- A checkbox-like element of the page, in document order.  `visible`
summarizes the style/disabled/readOnly filter of the harvesting script;
`nearTextHasAsterisk` summarizes the ancestor-text probe (depth ≤ 5). -/
structure CBElem where
  nm : String := ""
  id : String := ""
  lbl : String := ""
  /-- `true` for a native `input[type=checkbox]`; custom widgets
  (`role=checkbox`/`role=switch`) are the non-native case. -/
  native : Bool := true
  checked : Bool := false
  ariaChecked : Bool := false
  visible : Bool := true
  nearTextHasAsterisk : Bool := false
  deriving DecidableEq, Repr

/-- The record produced per element by the harvesting script. -/
structure CBRec where
  name : String
  id : String
  checked : Bool
  isCustom : Bool
  label : String
  hasAsterisk : Bool
  deriving DecidableEq, Repr

/-- The record the harvesting script computes for one element (checked
state from `checked` or `aria-checked`, asterisk flag from the label
text or the nearby ancestor text). -/
def harvestRec (e : CBElem) : CBRec :=
  { name := e.nm
    id := e.id
    checked := if e.native then e.checked else e.ariaChecked
    isCustom := !e.native
    label := e.lbl
    hasAsterisk := pyIn "*" e.lbl || e.nearTextHasAsterisk }

/-- The harvesting script: keep visible elements and compute per-element
records. -/
def harvestCheckboxes (page : List CBElem) : List CBRec :=
  (page.filter (·.visible)).map harvestRec

/-- Python's sort key `(not hasAsterisk, name)`, as a `≤` test. -/
def cbKeyLE (a b : CBRec) : Bool :=
  if a.hasAsterisk == b.hasAsterisk then decide (a.name ≤ b.name)
  else a.hasAsterisk

/-- Stable insertion preserving the original order of equal keys,
matching Python's stable `list.sort`. -/
def cbInsert (x : CBRec) : List CBRec → List CBRec
  | [] => [x]
  | y :: ys => if cbKeyLE x y then x :: y :: ys else y :: cbInsert x ys

/-- `all_checkboxes.sort(key=lambda x: (not x['hasAsterisk'], x['name']))`. -/
def cbSort (l : List CBRec) : List CBRec := l.foldr cbInsert []

/-- State threaded through the sweep: the evolving page, the
`processed_field_names` set (as a list) and the checked counter. -/
structure SweepSt where
  page : List CBElem
  processed : List String
  count : Nat
  deriving Repr

/-- Index of the first element satisfying the predicate. -/
def findIdxCB : List CBElem → (CBElem → Bool) → Option Nat
  | [], _ => none
  | e :: rest, f => if f e then some 0 else (findIdxCB rest f).map (· + 1)

/-- `page.locator(sel).first` for the two selector shapes the sweep
builds: `#id`, or `input[name="…"]` resolved to the first element of the
page with that name. -/
def resolveCBSelector (page : List CBElem) (byId : Bool) (key : String) : Option Nat :=
  findIdxCB page (fun e => if byId then e.id == key else e.nm == key)

/-- Set the element at `j` to checked (native `checked` or the custom
`aria-checked` attribute). -/
def setCheckedAt : List CBElem → Nat → Bool → List CBElem
  | [], _, _ => []
  | e :: rest, 0, custom =>
    (if custom then { e with ariaChecked := true } else { e with checked := true }) :: rest
  | e :: rest, j + 1, custom => e :: setCheckedAt rest j custom

/-- The attempt part of one sweep iteration, after the skip rules:
build selectors, resolve the first one, re-check visibility and state,
run the (deterministically successful) check ladder, then the final
verification and bookkeeping. -/
def cbAttempt (st : SweepSt) (r : CBRec) : SweepSt :=
  let isRequired := r.hasAsterisk
  let selectors :=
    (if !r.id.data.isEmpty then [(true, r.id)] else []) ++
    (if !r.name.data.isEmpty then [(false, r.name)] else [])
  match selectors with
  | [] => st
  | (byId, key) :: _ =>
    match resolveCBSelector st.page byId key with
    | none => st
    | some j =>
      match st.page.get? j with
      | none => st
      | some e =>
        if !e.visible then st
        else
          let isChecked := if r.isCustom then e.ariaChecked else e.checked
          if !isChecked || isRequired then
            -- custom: click + script forcing aria-checked='true';
            -- native: check(force=True) then is_checked() verification —
            -- modelled as the successful write.
            let page' := setCheckedAt st.page j r.isCustom
            let checkSuccess := true
            if checkSuccess || isRequired then
              let finalChecked := true
              if finalChecked || isRequired then
                { page := page'
                  processed := st.processed ++
                    (if !r.name.data.isEmpty then [r.name] else []) ++
                    (if !r.id.data.isEmpty then [r.id] else [])
                  count := st.count + 1 }
              else { st with page := page' }
            else { st with page := page' }
          else st

/-- One sweep iteration: the two skip rules (both bypassed for required
records), then the attempt. -/
def cbStep (st : SweepSt) (r : CBRec) : SweepSt :=
  if !r.hasAsterisk &&
      ((!r.name.data.isEmpty && st.processed.contains r.name) ||
       (!r.id.data.isEmpty && st.processed.contains r.id)) then st
  else if r.checked && !r.hasAsterisk then st
  else cbAttempt st r

/-- `FormFiller._check_all_checkboxes`: harvest, sort required-first,
then fold the per-record step over the sorted records. -/
def checkAllCheckboxes (page : List CBElem) (processed : List String) : SweepSt :=
  (cbSort (harvestCheckboxes page)).foldl cbStep
    { page := page, processed := processed, count := 0 }

/-- The observable checked state of an element: the native `checked`
property, or `aria-checked` for custom widgets — exactly what the
harvesting script reads back. -/
def elemChecked (e : CBElem) : Bool :=
  if e.native then e.checked else e.ariaChecked

/-- The fields of an element the sweep never writes: name, id,
visibility and nativeness. -/
def stripCB (e : CBElem) : String × String × Bool × Bool :=
  (e.nm, e.id, e.visible, e.native)

/-! ## The page oracle and the filler monad

Every Playwright round-trip made by a filler either yields a value or
raises; the abstract page is an oracle assigning to each successive call
a typed answer or an exception.  A filler is a program in the monad `M`,
which threads a call counter, a trace of the operations attempted (used
to state "no write happened"), and the select filler's
`original_input_locator` register.  `try/except` blocks of the Python
sources become `tryCatchM`.
-/

/-- One option record harvested by `_get_available_options`. -/
structure OptRec where
  value : String := ""
  label : String := ""
  fromDiv : Bool := false
  deriving DecidableEq, BEq, Repr

/-- The hidden-select descriptor returned by the custom-select probe. -/
structure HiddenSel where
  hid : String := ""
  hname : String := ""
  hselector : String := ""
  deriving DecidableEq, Repr

/-- A page operation, as recorded in the trace. -/
structure POp where
  kind : String
  loc : String := ""
  arg : String := ""
  deriving DecidableEq, Repr

/-- The page oracle: each channel answers the `i`-th page call. -/
structure PageOracle where
  unitO : Nat → Except Unit Unit
  boolO : Nat → Except Unit Bool
  natO : Nat → Except Unit Nat
  strO : Nat → Except Unit String
  optStrO : Nat → Except Unit (Option String)
  optsO : Nat → Except Unit (List OptRec)
  hsO : Nat → Except Unit (Option HiddenSel)
  natsO : Nat → Except Unit (List Nat)

/-- Monad state: call counter, operation trace, and the select filler's
`original_input_locator` local (which survives exceptions). -/
structure MSt where
  idx : Nat := 0
  trace : List POp := []
  oil : Option String := none

/-- The filler monad. -/
def M (α : Type) : Type := PageOracle → MSt → Except Unit α × MSt

instance : Monad M where
  pure a := fun _ s => (Except.ok a, s)
  bind x f := fun o s =>
    match x o s with
    | (Except.ok a, s') => f a o s'
    | (Except.error e, s') => (Except.error e, s')

/-- An uncaught Python exception. -/
def throwM {α : Type} : M α := fun _ s => (Except.error (), s)

/-- `try: x except: h`. -/
def tryCatchM {α : Type} (x h : M α) : M α := fun o s =>
  match x o s with
  | (Except.error _, s') => h o s'
  | r => r

/-- `try: x except: pass`. -/
def tryU (x : M Unit) : M Unit := tryCatchM x (pure ())

/-- A page primitive: consult one oracle channel, bump the counter and
record the operation. -/
def primOp {α : Type} (channel : PageOracle → Nat → Except Unit α) (op : POp) : M α :=
  fun o s => (channel o s.idx, { s with idx := s.idx + 1, trace := s.trace ++ [op] })

def pUnit (kind loc arg : String) : M Unit := primOp (·.unitO) ⟨kind, loc, arg⟩
def pBool (kind loc : String) : M Bool := primOp (·.boolO) ⟨kind, loc, ""⟩
def pNat (kind loc : String) : M Nat := primOp (·.natO) ⟨kind, loc, ""⟩
def pStr (kind loc : String) : M String := primOp (·.strO) ⟨kind, loc, ""⟩
def pOptStr (kind loc : String) : M (Option String) := primOp (·.optStrO) ⟨kind, loc, ""⟩
def pOpts (kind loc : String) : M (List OptRec) := primOp (·.optsO) ⟨kind, loc, ""⟩
def pHS (kind loc : String) : M (Option HiddenSel) := primOp (·.hsO) ⟨kind, loc, ""⟩
def pNats (kind loc : String) : M (List Nat) := primOp (·.natsO) ⟨kind, loc, ""⟩
def pBoolA (kind loc arg : String) : M Bool := primOp (·.boolO) ⟨kind, loc, arg⟩
def pOptStrA (kind loc arg : String) : M (Option String) := primOp (·.optStrO) ⟨kind, loc, arg⟩

/-- Read the `original_input_locator` register. -/
def getOilM : M (Option String) := fun _ s => (Except.ok s.oil, s)

/-- Assign the `original_input_locator` register. -/
def setOilM (v : Option String) : M Unit := fun _ s => (Except.ok (), { s with oil := v })

/-- A `for` loop whose body may `return` (`some b`) or fall through to
the next element (`none`). -/
def firstSomeM {α β : Type} (f : α → M (Option β)) : List α → M (Option β)
  | [] => pure none
  | x :: xs => do
    match ← f x with
    | some b => pure (some b)
    | none => firstSomeM f xs

/-- The page on which every Playwright call raises. -/
def errOracle : PageOracle :=
  { unitO := fun _ => Except.error ()
    boolO := fun _ => Except.error ()
    natO := fun _ => Except.error ()
    strO := fun _ => Except.error ()
    optStrO := fun _ => Except.error ()
    optsO := fun _ => Except.error ()
    hsO := fun _ => Except.error ()
    natsO := fun _ => Except.error () }

/-! ### `checkbox_filler.py` -/

/-- One selector attempt of `CheckboxFieldFiller.fill`: wait for
visibility, then toggle only when the current state differs from the
target — and report success immediately, without re-reading the state
after the write. -/
def checkboxFillBody (sel : String) (value : Bool) : M (Option Bool) := do
  pUnit "wait_for_visible" sel ""
  let n ← pNat "count" sel
  if n > 0 then do
    let isChecked ← pBool "is_checked" sel
    if value && !isChecked then do
      pUnit "check" sel ""
      pure (some true)
    else if !value && isChecked then do
      pUnit "uncheck" sel ""
      pure (some true)
    else
      pure (some true)
  else pure none

/-- `CheckboxFieldFiller.fill`: try each selector, swallowing
exceptions; `false` on exhaustion. -/
def checkboxFill (selectors : List String) (value : Bool) : M Bool := do
  let r ← firstSomeM (fun sel => tryCatchM (checkboxFillBody sel value) (pure none)) selectors
  pure (r.getD false)

/-! ### `text_filler.py` -/

/-- One selector attempt of `TextFieldFiller.fill`: focus, clear, fill,
re-read and compare; on mismatch retry with simulated typing and
re-read again. -/
def textFillBody (sel value : String) : M (Option Bool) := do
  pUnit "wait_for_visible" sel ""
  let n ← pNat "count" sel
  if n > 0 then do
    pUnit "scroll_into_view" sel ""
    pUnit "wait_timeout" "" "50"
    pUnit "focus" sel ""
    pUnit "wait_timeout" "" "50"
    pUnit "clear" sel ""
    pUnit "wait_timeout" "" "50"
    pUnit "fill" sel value
    pUnit "wait_timeout" "" "50"
    let currentValue ← pStr "input_value" sel
    if currentValue == value || pyIn value currentValue then
      pure (some true)
    else do
      pUnit "clear" sel ""
      pUnit "type" sel value
      let typedValue ← pStr "input_value" sel
      if typedValue == value || pyIn value typedValue then pure (some true)
      else pure none
  else pure none

/-- `TextFieldFiller.fill`. -/
def textFill (selectors : List String) (value : String) : M Bool := do
  let r ← firstSomeM (fun sel => tryCatchM (textFillBody sel value) (pure none)) selectors
  pure (r.getD false)

/-! ### Exception-freedom infrastructure -/

/-- The program never ends in an uncaught exception. -/
def NoThrow {α : Type} (x : M α) : Prop :=
  ∀ o s, ∃ a s', x o s = (Except.ok a, s')

theorem noThrow_pure {α : Type} (a : α) : NoThrow (pure a : M α) :=
  fun _ s => ⟨a, s, rfl⟩

theorem noThrow_bind {α β : Type} {x : M α} {f : α → M β}
    (hx : NoThrow x) (hf : ∀ a, NoThrow (f a)) : NoThrow (x >>= f) := by
  intro o s
  obtain ⟨a, s', h⟩ := hx o s
  obtain ⟨b, s'', h'⟩ := hf a o s'
  refine ⟨b, s'', ?_⟩
  show (Bind.bind x f) o s = _
  simp only [Bind.bind, Monad.toBind, instMonadM]
  rw [h]
  exact h'

theorem noThrow_tryCatch {α : Type} (x : M α) {h : M α}
    (hh : NoThrow h) : NoThrow (tryCatchM x h) := by
  intro o s
  unfold tryCatchM
  cases hx : x o s with
  | mk r s' =>
    cases r with
    | error e => exact hh o s'
    | ok a => exact ⟨a, s', rfl⟩

theorem noThrow_firstSomeM {α β : Type} {f : α → M (Option β)}
    (hf : ∀ a, NoThrow (f a)) : ∀ l, NoThrow (firstSomeM f l) := by
  intro l
  induction l with
  | nil => exact noThrow_pure none
  | cons x xs ih =>
    show NoThrow (f x >>= _)
    refine noThrow_bind (hf x) ?_
    intro a
    cases a with
    | some b => exact noThrow_pure _
    | none => exact ih

theorem noThrow_getOil : NoThrow getOilM := fun _ s => ⟨s.oil, s, rfl⟩

theorem noThrow_setOil (v : Option String) : NoThrow (setOilM v) :=
  fun _ s => ⟨(), { s with oil := v }, rfl⟩

/-- A loop of per-element `try/except: continue` bodies never throws. -/
theorem noThrow_wrappedLoop {α β : Type} (f : α → M (Option β)) (l : List α) :
    NoThrow (firstSomeM (fun x => tryCatchM (f x) (pure none)) l) :=
  noThrow_firstSomeM (fun a => noThrow_tryCatch (f a) (noThrow_pure none)) l

theorem noThrow_checkboxFill (selectors : List String) (value : Bool) :
    NoThrow (checkboxFill selectors value) :=
  noThrow_bind (noThrow_wrappedLoop _ selectors) (fun r => noThrow_pure (r.getD false))

theorem noThrow_textFill (selectors : List String) (value : String) :
    NoThrow (textFill selectors value) :=
  noThrow_bind (noThrow_wrappedLoop _ selectors) (fun r => noThrow_pure (r.getD false))

/-! ### `select_filler.py` — value mappings -/

/-- The two candidate lists produced by `_get_value_mappings`. -/
structure ValueMappings where
  values : List String
  labels : List String
  deriving DecidableEq, Repr

/-- The gender table. -/
def genderMappings : List (String × ValueMappings) :=
  [("male", ⟨["m", "male"], ["Männlich", "Male", "männlich"]⟩),
   ("männlich", ⟨["m", "male"], ["Männlich", "Male", "männlich"]⟩),
   ("female", ⟨["w", "f", "female"], ["Weiblich", "Female", "weiblich"]⟩),
   ("weiblich", ⟨["w", "f", "female"], ["Weiblich", "Female", "weiblich"]⟩),
   ("divers", ⟨["d", "divers"], ["Divers", "divers"]⟩),
   ("diverse", ⟨["d", "divers"], ["Divers", "divers"]⟩),
   ("ohne angabe", ⟨["u", "ohne_angabe", "keine_angabe"], ["Ohne Angabe", "ohne angabe", "keine angabe"]⟩),
   ("keine_angabe", ⟨["u", "ohne_angabe", "keine_angabe"], ["Ohne Angabe", "ohne angabe", "keine angabe"]⟩),
   ("ohne_angabe", ⟨["u", "ohne_angabe", "keine_angabe"], ["Ohne Angabe", "ohne angabe", "keine angabe"]⟩)]

/-- The country table. -/
def countryMappings : List (String × ValueMappings) :=
  [("germany", ⟨["de", "germany", "deutschland"], ["Germany", "Deutschland", "germany", "deutschland"]⟩),
   ("deutschland", ⟨["de", "germany", "deutschland"], ["Germany", "Deutschland", "germany", "deutschland"]⟩),
   ("austria", ⟨["at", "austria", "österreich"], ["Austria", "Österreich", "austria", "österreich"]⟩),
   ("switzerland", ⟨["ch", "switzerland", "schweiz"], ["Switzerland", "Schweiz", "switzerland", "schweiz"]⟩),
   ("iran", ⟨["ir", "iran", "islamic republic of iran"], ["Iran", "Iran (Islamic Republic of)", "Iran, Islamic Republic of", "iran"]⟩),
   ("persia", ⟨["ir", "iran", "islamic republic of iran"], ["Iran", "Iran (Islamic Republic of)", "Iran, Islamic Republic of", "iran"]⟩)]

/-- The years-of-experience table. -/
def experienceMappings : List (String × ValueMappings) :=
  [("beginners", ⟨["0"], ["Einsteiger", "Beginners", "beginners"]⟩),
   ("einsteiger", ⟨["0"], ["Einsteiger", "Beginners", "beginners"]⟩),
   ("1 year", ⟨["1"], ["bis 1 Jahr", "up to 1 year"]⟩),
   ("bis 1 jahr", ⟨["1"], ["bis 1 Jahr", "up to 1 year"]⟩),
   ("2 years", ⟨["2"], ["bis 2 Jahre", "up to 2 years"]⟩),
   ("bis 2 jahre", ⟨["2"], ["bis 2 Jahre", "up to 2 years"]⟩),
   ("5 years", ⟨["5"], ["bis 5 Jahre", "up to 5 years"]⟩),
   ("bis 5 jahre", ⟨["5"], ["bis 5 Jahre", "up to 5 years"]⟩),
   ("10 years", ⟨["10"], ["bis 10 Jahre", "up to 10 years"]⟩),
   ("bis 10 jahre", ⟨["10"], ["bis 10 Jahre", "up to 10 years"]⟩),
   ("15 years", ⟨["15"], ["bis 15 Jahre oder mehr", "up to 15 years or more"]⟩),
   ("bis 15 jahre oder mehr", ⟨["15"], ["bis 15 Jahre oder mehr", "up to 15 years or more"]⟩),
   ("15+", ⟨["15"], ["bis 15 Jahre oder mehr", "up to 15 years or more"]⟩)]

/-- The graduation table. -/
def graduationMappings : List (String × ValueMappings) :=
  [("hauptschulabschluss", ⟨["Hauptschulabschluss"], ["Secondary school leaving certificate / lower secondary school", "Hauptschulabschluss"]⟩),
   ("realschulabschluss", ⟨["Realschulabschluss"], ["Secondary school leaving certificate / vocational baccalaureate", "Realschulabschluss"]⟩),
   ("abitur", ⟨["Abitur / Matura"], ["Abitur / Matura", "Abitur", "Matura"]⟩),
   ("matura", ⟨["Abitur / Matura"], ["Abitur / Matura", "Abitur", "Matura"]⟩),
   ("hochschule / uni / fh /etc.", ⟨["Hochschule / Uni / FH /etc."], ["College / University / University of Applied Sciences / etc.", "Hochschule / Uni / FH /etc.", "University", "College"]⟩),
   ("university", ⟨["Hochschule / Uni / FH /etc."], ["College / University / University of Applied Sciences / etc.", "Hochschule / Uni / FH /etc.", "University", "College"]⟩),
   ("college", ⟨["Hochschule / Uni / FH /etc."], ["College / University / University of Applied Sciences / etc.", "Hochschule / Uni / FH /etc.", "University", "College"]⟩),
   ("bachelor", ⟨["Hochschule / Uni / FH /etc."], ["College / University / University of Applied Sciences / etc.", "Hochschule / Uni / FH /etc.", "University", "College"]⟩),
   ("master", ⟨["Hochschule / Uni / FH /etc."], ["College / University / University of Applied Sciences / etc.", "Hochschule / Uni / FH /etc.", "University", "College"]⟩)]

/-- The language-proficiency table. -/
def languageMappings : List (String × ValueMappings) :=
  [("unknown", ⟨["unknown"], ["Keine Kenntnis", "No knowledge", "unknown"]⟩),
   ("no knowledge", ⟨["unknown"], ["Keine Kenntnis", "No knowledge", "unknown"]⟩),
   ("keine kenntnis", ⟨["unknown"], ["Keine Kenntnis", "No knowledge", "unknown"]⟩),
   ("little_known", ⟨["little_known"], ["Geringe Kenntnis", "Little knowledge", "little_known"]⟩),
   ("little knowledge", ⟨["little_known"], ["Geringe Kenntnis", "Little knowledge", "little_known"]⟩),
   ("geringe kenntnis", ⟨["little_known"], ["Geringe Kenntnis", "Little knowledge", "little_known"]⟩),
   ("basic", ⟨["little_known"], ["Geringe Kenntnis", "Little knowledge", "little_known"]⟩),
   ("advanced", ⟨["advanced"], ["Fortgeschritten", "Advanced", "advanced"]⟩),
   ("fortgeschritten", ⟨["advanced"], ["Fortgeschritten", "Advanced", "advanced"]⟩),
   ("fluent", ⟨["fluent"], ["Verhandlungssicher", "Fluent", "fluent"]⟩),
   ("verhandlungssicher", ⟨["fluent"], ["Verhandlungssicher", "Fluent", "fluent"]⟩),
   ("native", ⟨["fluent"], ["Verhandlungssicher", "Fluent", "fluent"]⟩),
   ("native speaker", ⟨["fluent"], ["Verhandlungssicher", "Fluent", "fluent"]⟩)]

/-- `SelectFieldFiller._get_value_mappings`: map a configuration value
to candidate option values/labels keyed on the field's semantic kind;
fall back to the raw value. -/
def getValueMappings (fieldName configValue : String) : ValueMappings :=
  let lowerFieldName := pyLower fieldName
  let lowerValue := pyStrip (pyLower configValue)
  let gender :=
    if pyIn "gender" lowerFieldName || pyIn "geschlecht" lowerFieldName then
      genderMappings.lookup lowerValue
    else none
  match gender with
  | some m => m
  | none =>
  let country :=
    if pyIn "country" lowerFieldName || pyIn "land" lowerFieldName then
      countryMappings.lookup lowerValue
    else none
  match country with
  | some m => m
  | none =>
  let experience :=
    if pyIn "job_experience" lowerFieldName || pyIn "professional experience" lowerFieldName ||
        pyIn "berufserfahrung" lowerFieldName then
      -- direct numeric passthrough: `str(int(config_value))` guarded by a bare except
      match pyParseInt configValue with
      | some i =>
        if !configValue.data.isEmpty then some ⟨[pyIntToStr i], []⟩
        else experienceMappings.lookup lowerValue
      | none => experienceMappings.lookup lowerValue
    else none
  match experience with
  | some m => m
  | none =>
  let career :=
    if pyIn "career_levels" lowerFieldName || pyIn "karrierestufe" lowerFieldName ||
        pyIn "career level" lowerFieldName then
      if !configValue.data.isEmpty then some (⟨[configValue], []⟩ : ValueMappings) else none
    else none
  match career with
  | some m => m
  | none =>
  let graduation :=
    if pyIn "graduation" lowerFieldName || pyIn "highest degree" lowerFieldName ||
        pyIn "höchster abschluss" lowerFieldName then
      graduationMappings.lookup lowerValue
    else none
  match graduation with
  | some m => m
  | none =>
  let language :=
    if pyIn "german_knowledge" lowerFieldName || pyIn "deutsch" lowerFieldName ||
        pyIn "english_knowledge" lowerFieldName || pyIn "englisch" lowerFieldName then
      languageMappings.lookup lowerValue
    else none
  match language with
  | some m => m
  | none => ⟨[configValue], [configValue]⟩

/-! ### `select_filler.py` — reading options and filling -/

/-- The alternative option-reading path (`except` branch of
`_get_available_options`): re-derive a selector from id/name and query
the document directly. -/
def gaoAlt (loc : String) : M (List OptRec) :=
  tryCatchM
    (do
      let elementId ← pOptStr "get_attribute id" loc
      let elementName ← pOptStr "get_attribute name" loc
      let selector : Option String :=
        if optTruthy elementId then some ("#" ++ elementId.getD "")
        else if optTruthy elementName then some ("[name=\"" ++ elementName.getD "" ++ "\"]")
        else none
      match selector with
      | some sel => pOpts "js_options_by_selector" sel
      | none => pure [])
    (pure [])

/-- `SelectFieldFiller._get_available_options`: read the live option
list — from a `bw-select-menu` popover, from a masked custom select's
hidden `select` and option `div`s, or from a native `select`. -/
def getAvailableOptionsM (loc : String) : M (List OptRec) :=
  tryCatchM
    (do
      let element ← pBool "element_handle" loc
      if !element then pure []
      else do
        let tagName ← pStr "eval_tag_name" loc
        let inputType ← pOptStr "get_attribute type" loc
        let dataPlaceholder ← pOptStr "get_attribute data-placeholder" loc
        let role ← pOptStr "get_attribute role" loc
        let isBw ←
          if tagName == "button" && role == some "combobox" then
            pBool "js_has_bw_popover" ""
          else pure false
        let bwResult ←
          if isBw then
            tryCatchM
              (do
                pUnit "click" loc ""
                pUnit "wait_timeout" "" "500"
                let opts ← pOpts "js_bw_options" ""
                if !opts.isEmpty then pure (some opts)
                else do
                  pUnit "press" "" "Escape"
                  pUnit "wait_timeout" "" "200"
                  pure none)
              (do
                tryU (do pUnit "press" "" "Escape"; pUnit "wait_timeout" "" "200")
                pure none)
          else pure none
        match bwResult with
        | some opts => pure opts
        | none =>
          if tagName == "input" && inputType == some "text" && optTruthy dataPlaceholder then do
            let _ ← pBool "element_handle" loc
            pOpts "js_custom_select_options" loc
          else
            pOpts "eval_select_options" loc)
    (gaoAlt loc)

/-- `SelectFieldFiller._update_custom_select_input`: propagate the
selected label back into the visible pseudo-input. -/
def updateCustomSelectInputM : Option String → String → M Unit
  | some oilLoc, selectedLabel =>
    tryU (do
      let _ ← pBool "element_handle" oilLoc
      pUnit "js_update_input_text" oilLoc selectedLabel)
  | none, _ => pure ()

/-- Strategy 0's exact scan over the harvested options: skip
placeholders (empty value), then exact value match, then exact label
match. -/
def findMatchingOption (valueStr valueLower : String) : List OptRec → Option OptRec
  | [] => none
  | opt :: rest =>
    let optValue := pyStrip opt.value
    if optValue.data.isEmpty then findMatchingOption valueStr valueLower rest
    else
      let optValueLower := pyStrip (pyLower optValue)
      let optLabelLower := pyStrip (pyLower opt.label)
      if optValue == valueStr || optValueLower == valueLower then some opt
      else if opt.label == valueStr || optLabelLower == valueLower then some opt
      else findMatchingOption valueStr valueLower rest

/-- The shared verification test `selected == opt_value or (selected and
str(selected) == opt_value)`. -/
def selVerify (selected optValue : String) : Bool :=
  selected == optValue || (!selected.data.isEmpty && selected == optValue)

/-- bw-select-menu path of strategy 0: open the popover and click the
matching option, then report success without re-reading any state. -/
def bwSelectBlock (loc optLabel : String) : M (Option Bool) :=
  tryCatchM
    (do
      pUnit "click" loc ""
      pUnit "wait_timeout" "" "500"
      let optionClicked ← pBool "js_click_bw_option" optLabel
      if optionClicked then do
        pUnit "wait_timeout" "" "500"
        pure (some true)
      else do
        pUnit "press" "" "Escape"
        pUnit "wait_timeout" "" "200"
        pure none)
    (do
      tryU (do pUnit "press" "" "Escape"; pUnit "wait_timeout" "" "200")
      pure none)

/-- Custom-select path of strategy 0: open the pseudo-input, click the
option `div`, then verify against the hidden select's value. -/
def customDivClickBlock (oilLoc optValue optLabel : String) : M (Option Bool) :=
  tryCatchM
    (do
      pUnit "click" oilLoc ""
      pUnit "wait_timeout" "" "300"
      let _ ← pBool "element_handle" oilLoc
      let clicked ← pBool "js_click_div_option" optLabel
      if clicked then do
        pUnit "wait_timeout" "" "500"
        let _ ← pBool "element_handle" oilLoc
        let selectValue ← pStr "js_hidden_select_value" oilLoc
        if selVerify selectValue optValue then do
          updateCustomSelectInputM (some oilLoc) optLabel
          pure (some true)
        else pure none
      else pure none)
    (pure none)

/-- Strategy 0, method 1: `select_option(value=…)` then re-read. -/
def s0Method1 (loc optValue optLabel : String) : M (Option Bool) :=
  tryCatchM
    (do
      pUnit "select_option_value" loc optValue
      pUnit "wait_timeout" "" "300"
      let selected ← pStr "input_value" loc
      if selVerify selected optValue then do
        let oil ← getOilM
        updateCustomSelectInputM oil optLabel
        pure (some true)
      else pure none)
    (pure none)

/-- Strategy 0, method 2: direct DOM assignment with event dispatch,
then re-read. -/
def s0Method2 (selector loc optValue optLabel : String) : M (Option Bool) :=
  tryCatchM
    (do
      let _ ← pOptStrA "js_dom_set_select_value" selector optValue
      pUnit "wait_timeout" "" "500"
      let selected ← pStr "input_value" loc
      if selVerify selected optValue then do
        let oil ← getOilM
        updateCustomSelectInputM oil optLabel
        pure (some true)
      else pure none)
    (pure none)

/-- Strategy 0, method 3: `select_option(index=…)` then re-read. -/
def s0Method3 (loc optValue optLabel : String) (optionIndex : Nat) : M (Option Bool) :=
  tryCatchM
    (do
      pUnit "select_option_index" loc (toString optionIndex)
      pUnit "wait_timeout" "" "300"
      let selected ← pStr "input_value" loc
      if selVerify selected optValue then do
        let oil ← getOilM
        updateCustomSelectInputM oil optLabel
        pure (some true)
      else pure none)
    (pure none)

/-- Strategy 0's block for an exactly matching option. -/
def s0ExactBlock (selector loc tagName : String) (role : Option String)
    (availableOptions : List OptRec) (mo : OptRec) : M (Option Bool) := do
  let optValue := pyStrip mo.value
  let optLabel := mo.label
  let isBw ←
    if tagName == "button" && role == some "combobox" then
      pBool "js_has_bw_popover" ""
    else pure false
  let rBw ← if isBw then bwSelectBlock loc optLabel else pure none
  match rBw with
  | some b => pure (some b)
  | none => do
    let oil ← getOilM
    let rCustom ←
      match oil with
      | some oilLoc =>
        if !optLabel.data.isEmpty then customDivClickBlock oilLoc optValue optLabel
        else pure none
      | none => pure none
    match rCustom with
    | some b => pure (some b)
    | none => do
      let r1 ← s0Method1 loc optValue optLabel
      match r1 with
      | some b => pure (some b)
      | none => do
        let r2 ← s0Method2 selector loc optValue optLabel
        match r2 with
        | some b => pure (some b)
        | none => s0Method3 loc optValue optLabel (availableOptions.indexOf mo)

/-- The exact-original-value block inside the second scan (methods 2 and
3 run only when method 1 raised; a final state read happens when the
methods fall through). -/
def exactOriginalBlock (selector loc : String)
    (availableOptions : List OptRec) (opt : OptRec) (optValue : String) : M (Option Bool) :=
  tryCatchM
    (do
      let r ← tryCatchM
        (do
          pUnit "select_option_value" loc optValue
          pUnit "wait_timeout" "" "300"
          let selected ← pStr "input_value" loc
          if selected == optValue || (!selected.data.isEmpty && !optValue.data.isEmpty && selected == optValue) then
            pure (some true)
          else pure none)
        (do
          let r2 ← tryCatchM
            (do
              pUnit "select_option_index" loc (toString (availableOptions.indexOf opt))
              pUnit "wait_timeout" "" "300"
              let selected ← pStr "input_value" loc
              if selected == optValue || (!selected.data.isEmpty && !optValue.data.isEmpty && selected == optValue) then
                pure (some true)
              else pure none)
            (tryCatchM
              (do
                let _ ← pOptStrA "js_dom_set_select_value_angular" selector optValue
                pUnit "wait_timeout" "" "500"
                let selected ← pStr "input_value" loc
                if selected == optValue || (!selected.data.isEmpty && !optValue.data.isEmpty && selected == optValue) then
                  pure (some true)
                else pure none)
              (pure none))
          pure r2)
      match r with
      | some b => pure (some b)
      | none => do
        let _ ← pStr "input_value" loc
        pure none)
    (pure none)

/-- One option of the second scan: mapped values, mapped labels, the
original value exactly, then partial containment. -/
def secondScanBody (selector loc valueLower : String) (mappings : ValueMappings)
    (availableOptions : List OptRec) (opt : OptRec) : M (Option Bool) := do
  let optValue := pyStrip opt.value
  if optValue.data.isEmpty then pure none
  else do
    let optValueLower := pyStrip (pyLower optValue)
    let optLabelLower := pyStrip (pyLower opt.label)
    let r1 ← firstSomeM
      (fun mappedValue => do
        let mappedLower := pyStrip (pyLower mappedValue)
        if optValueLower == mappedLower || optLabelLower == mappedLower then
          tryCatchM
            (do
              pUnit "select_option_value" loc optValue
              pUnit "wait_timeout" "" "200"
              let selected ← pStr "input_value" loc
              if selected == optValue || (!selected.data.isEmpty && !optValue.data.isEmpty && selected == optValue) then do
                let oil ← getOilM
                updateCustomSelectInputM oil opt.label
                pure (some true)
              else pure none)
            (pure none)
        else pure none)
      mappings.values
    match r1 with
    | some b => pure (some b)
    | none => do
      let r2 ← firstSomeM
        (fun mappedLabel => do
          let mappedLower := pyStrip (pyLower mappedLabel)
          if pyIn mappedLower optLabelLower || pyIn optLabelLower mappedLower then
            tryCatchM
              (do
                pUnit "select_option_value" loc optValue
                pUnit "wait_timeout" "" "200"
                let selected ← pStr "input_value" loc
                if selected == optValue || (!selected.data.isEmpty && !optValue.data.isEmpty && selected == optValue) then do
                  let oil ← getOilM
                  updateCustomSelectInputM oil opt.label
                  pure (some true)
                else pure none)
              (pure none)
          else pure none)
        mappings.labels
      match r2 with
      | some b => pure (some b)
      | none => do
        let r3 ←
          if valueLower == optValueLower || valueLower == optLabelLower then
            exactOriginalBlock selector loc availableOptions opt optValue
          else pure none
        match r3 with
        | some b => pure (some b)
        | none =>
          if !optValue.data.isEmpty && (pyIn valueLower optLabelLower || pyIn optLabelLower valueLower) then
            tryCatchM
              (do
                pUnit "select_option_value" loc optValue
                pUnit "wait_timeout" "" "300"
                let selected ← pStr "input_value" loc
                if selected == optValue || (!selected.data.isEmpty && !optValue.data.isEmpty && selected == optValue) then
                  pure (some true)
                else pure none)
              (pure none)
          else pure none

/-- Strategy 0: option-list driven matching. -/
def selectStrategy0 (selector loc value tagName : String) (role : Option String)
    (mappings : ValueMappings) (availableOptions : List OptRec) : M (Option Bool) := do
  let valueLower := pyStrip (pyLower value)
  let valueStr := pyStrip value
  let matchingOption := findMatchingOption valueStr valueLower availableOptions
  let r1 ←
    match matchingOption with
    | some mo => s0ExactBlock selector loc tagName role availableOptions mo
    | none => pure none
  match r1 with
  | some b => pure (some b)
  | none =>
    firstSomeM (secondScanBody selector loc valueLower mappings availableOptions)
      availableOptions

/-- Strategy 1: direct DOM manipulation with each mapped value. -/
def selectStrategy1 (selector loc : String) (mappings : ValueMappings) : M (Option Bool) :=
  firstSomeM
    (fun mappedValue =>
      tryCatchM
        (do
          let success ← pBoolA "js_dom_find_and_set" selector mappedValue
          if success then do
            pUnit "wait_timeout" "" "200"
            let selected ← pStr "input_value" loc
            if selected == mappedValue || pyLower selected == pyLower mappedValue then
              pure (some true)
            else pure none
          else pure none)
        (pure none))
    mappings.values

/-- Strategy 2: `select_option` with each mapped value. -/
def selectStrategy2 (loc : String) (mappings : ValueMappings) : M (Option Bool) :=
  firstSomeM
    (fun mappedValue =>
      tryCatchM
        (do
          pUnit "select_option_value" loc mappedValue
          let selectedValue ← pStr "input_value" loc
          if selectedValue == mappedValue || pyLower selectedValue == pyLower mappedValue then
            pure (some true)
          else pure none)
        (pure none))
    mappings.values

/-- Strategy 3: `select_option` by each mapped label; success is
accepted as soon as the re-read value is non-empty. -/
def selectStrategy3 (loc : String) (mappings : ValueMappings) : M (Option Bool) :=
  firstSomeM
    (fun mappedLabel =>
      tryCatchM
        (do
          pUnit "select_option_label" loc mappedLabel
          let selectedValue ← pStr "input_value" loc
          if !selectedValue.data.isEmpty then pure (some true)
          else pure none)
        (pure none))
    mappings.labels

/-- Strategy 4: the original value directly — `select_option` by value,
and on exception by index (digits only), DOM assignment, then by label. -/
def selectStrategy4 (selector loc value : String) (availableOptions : List OptRec) :
    M (Option Bool) :=
  let valueStr := pyStrip value
  tryCatchM
    (tryCatchM
      (do
        pUnit "select_option_value" loc valueStr
        pUnit "wait_timeout" "" "300"
        let sv ← pStr "input_value" loc
        if sv == valueStr || (!sv.data.isEmpty && sv == valueStr) then pure (some true)
        else pure none)
      (do
        let r2 ← tryCatchM
          (if pyIsDigit valueStr then
            firstSomeM
              (fun (p : Nat × OptRec) => do
                if p.2.value == valueStr then do
                  pUnit "select_option_index" loc (toString p.1)
                  pUnit "wait_timeout" "" "300"
                  let sv ← pStr "input_value" loc
                  if sv == valueStr || (!sv.data.isEmpty && sv == valueStr) then pure (some true)
                  else pure none
                else pure none)
              availableOptions.enum
          else pure none)
          (pure none)
        match r2 with
        | some b => pure (some b)
        | none => do
          let r3 ← tryCatchM
            (do
              let success ← pBoolA "js_dom_find_and_set_ci" selector valueStr
              if success then do
                pUnit "wait_timeout" "" "300"
                let sv ← pStr "input_value" loc
                if sv == valueStr || (!sv.data.isEmpty && sv == valueStr) then pure (some true)
                else pure none
              else pure none)
            (pure none)
          match r3 with
          | some b => pure (some b)
          | none =>
            tryCatchM
              (do
                pUnit "select_option_label" loc valueStr
                pUnit "wait_timeout" "" "300"
                let sv ← pStr "input_value" loc
                if !sv.data.isEmpty then pure (some true)
                else pure none)
              (pure none)))
    (pure none)

/-- One selector attempt of `SelectFieldFiller.fill`. -/
def selectBody (selector value fieldName : String) : M (Option Bool) := do
  let count ← pNat "count" selector
  if count == 0 then pure none
  else do
    tryU (pUnit "wait_for_visible" selector "")
    let n2 ← pNat "count" selector
    if n2 > 0 then do
      pUnit "scroll_into_view" selector ""
      pUnit "wait_timeout" "" "100"
      let tagName ← pStr "eval_tag_name" selector
      let inputType ← pOptStr "get_attribute type" selector
      let dataPlaceholder ← pOptStr "get_attribute data-placeholder" selector
      let role ← pOptStr "get_attribute role" selector
      let loc ←
        if tagName == "input" && inputType == some "text" && optTruthy dataPlaceholder then do
          let _ ← pBool "element_handle" selector
          let hiddenSelect ← pHS "js_find_hidden_select" selector
          match hiddenSelect with
          | some hs => do
            setOilM (some selector)
            pure hs.hselector
          | none => do
            setOilM none
            pure selector
        else pure selector
      let availableOptions ← tryCatchM (getAvailableOptionsM loc) (pure [])
      let mappings := getValueMappings fieldName value
      let s0 ←
        if !availableOptions.isEmpty then
          selectStrategy0 selector loc value tagName role mappings availableOptions
        else pure none
      match s0 with
      | some b => pure (some b)
      | none => do
        let s1 ← selectStrategy1 selector loc mappings
        match s1 with
        | some b => pure (some b)
        | none => do
          let s2 ← selectStrategy2 loc mappings
          match s2 with
          | some b => pure (some b)
          | none => do
            let s3 ← selectStrategy3 loc mappings
            match s3 with
            | some b => pure (some b)
            | none => selectStrategy4 selector loc value availableOptions
    else pure none

/-- `SelectFieldFiller.fill`. -/
def selectFill (selectors : List String) (value fieldName : String) : M Bool := do
  setOilM none
  let r ← firstSomeM (fun sel => tryCatchM (selectBody sel value fieldName) (pure none)) selectors
  pure (r.getD false)

theorem noThrow_selectFill (selectors : List String) (value fieldName : String) :
    NoThrow (selectFill selectors value fieldName) :=
  noThrow_bind (noThrow_setOil none) fun _ =>
    noThrow_bind (noThrow_wrappedLoop _ selectors) fun r => noThrow_pure (r.getD false)

/-! ### `radio_filler.py` -/

/-- Python `s.split()`: split on whitespace runs, dropping empties. -/
def pySplitWs (s : String) : List String :=
  ((s.data.splitOnP isPySpace).filter (fun l => !l.isEmpty)).map (fun l => ⟨l⟩)

/-- The German-language-level synonym table of the radio filler. -/
def germanLevelMappings : List (String × List String) :=
  [("fluent", ["oberstufe", "c1", "c2", "muttersprachlich", "muttersprachliches niveau"]),
   ("oberstufe__c1_c2__dsh_1___tdn_4__", ["oberstufe", "c1", "c2", "dsh", "tdn"]),
   ("oberstufe", ["oberstufe", "c1", "c2"]),
   ("c1", ["c1", "oberstufe"]),
   ("c2", ["c2", "oberstufe"]),
   ("muttersprachlich", ["muttersprachlich", "muttersprachliches"]),
   ("intermediate", ["mittelstufe", "b1", "b2"]),
   ("beginner", ["unterstufe", "a1", "a2", "ich spreche kein deutsch"])]

/-- The yes/no synonym table of the radio filler. -/
def remoteMappings : List (String × List String) :=
  [("ja", ["ja", "yes", "y"]),
   ("nein", ["nein", "no", "n"]),
   ("yes", ["ja", "yes"]),
   ("no", ["nein", "no"])]

/-- The matching decision of the locator-context pass (lines 116–192 of
`radio_filler.py`): domain tables first (German level when the field
label mentions `sprachlevel`/`deutsch`, yes/no when it mentions
`remote`/`heimarbeit`), then exact/substring value match, then
exact/substring/word label match. -/
def radioMatches (fieldLabel value : String)
    (radioValue radioLabelText : Option String) : Bool :=
  let valueLower := pyStrip (pyLower value)
  let valueOriginal := pyStrip value
  let flLower := pyLower fieldLabel
  let m1 :=
    if pyIn "sprachlevel" flLower || pyIn "deutsch" flLower then
      match radioLabelText with
      | some rl =>
        if !rl.data.isEmpty then
          let labelLower := pyStrip (pyLower rl)
          ((germanLevelMappings.lookup valueLower).getD []).any
            (fun mv => pyIn mv labelLower || pyIn labelLower mv)
        else false
      | none => false
    else false
  let m2 :=
    if pyIn "remote" flLower || pyIn "heimarbeit" flLower then
      match radioLabelText with
      | some rl =>
        if !rl.data.isEmpty then
          let labelLower := pyStrip (pyLower rl)
          remoteMappings.any
            (fun kv => pyIn kv.1 valueLower &&
              kv.2.any (fun mv => pyIn mv labelLower || labelLower == mv))
        else false
      | none => false
    else false
  let m12 := m1 || m2
  let m3 :=
    if !m12 && optTruthy radioValue then
      let rv := radioValue.getD ""
      (rv == valueOriginal || pyLower rv == valueLower) ||
        (pyIn valueLower (pyLower rv) || pyIn (pyLower rv) valueLower)
    else false
  let m123 := m12 || m3
  let m4 :=
    if !m123 && optTruthy radioLabelText then
      let rl := radioLabelText.getD ""
      let labelLower := pyStrip (pyLower rl)
      if rl == valueOriginal || labelLower == valueLower then true
      else if pyIn valueLower labelLower || pyIn labelLower valueLower then true
      else
        (pySplitWs labelLower).any
          (fun w => w.data.length > 3 && (pyIn w valueLower || pyIn valueLower w))
    else false
  m123 || m4

/-- Scroll, check, settle, then verify `is_checked`. -/
def checkRadioAndVerify (radioLoc : String) : M (Option Bool) := do
  pUnit "scroll_into_view" radioLoc ""
  pUnit "wait_timeout" "" "100"
  pUnit "check" radioLoc ""
  pUnit "wait_timeout" "" "200"
  let isChecked ← pBool "is_checked" radioLoc
  if isChecked then pure (some true) else pure none

/-- The locator-context pass of `RadioFieldFiller.fill`: compare each
same-named radio's serialized ancestor container against the target's,
and check the first context-matching radio whose value or label matches.
(The `value_lower_mapped` computation of the source only feeds a debug
print and has no behavioural effect.) -/
def radioLocatorBlock (value fieldLabel loc : String) : M (Option Bool) :=
  tryCatchM
    (do
      let name ← pOptStr "get_attribute name" loc
      if optTruthy name then do
        let containerInfo ← pOptStr "js_container_info" loc
        let n ← pNat "all" ("input[type=radio][name=\"" ++ name.getD "" ++ "\"]")
        firstSomeM
          (fun i =>
            tryCatchM
              (do
                let radioLoc := "radio-nth:" ++ toString i
                let radioContainer ← pOptStr "js_container_info" radioLoc
                let containersMatch :=
                  containerInfo == radioContainer ||
                    (!optTruthy containerInfo && !optTruthy radioContainer)
                if containersMatch then do
                  let radioValue ← pOptStr "get_attribute value" radioLoc
                  let _radioId ← pOptStr "get_attribute id" radioLoc
                  let radioLabelText ← pOptStr "js_radio_label" radioLoc
                  if radioMatches fieldLabel value radioValue radioLabelText then
                    checkRadioAndVerify radioLoc
                  else pure none
                else pure none)
              (pure none))
          (List.range n)
      else pure none)
    (pure none)

/-- Extract the radio-group name from the selector string (lines
216–237): `[name="…"]` form, bare `name="…"` form, else the selector
itself stripped; fall back to the field name when empty. -/
def extractRadioName (nameSelector fieldName : String) : String :=
  let name : String :=
    if nameSelector.data.isEmpty then ""
    else if pyIn "[name=\"" nameSelector then
      match findSub "[name=\"".data nameSelector.data with
      | some st =>
        let start := st + 7
        match findSub "\"]".data (nameSelector.data.drop start) with
        | some off => if off > 0 then ⟨(nameSelector.data.drop start).take off⟩ else ""
        | none => ""
      | none => ""
    else if pyIn "name=\"" nameSelector then
      match findSub "name=\"".data nameSelector.data with
      | some st =>
        let start := st + 6
        match findSub "\"".data (nameSelector.data.drop start) with
        | some off => if off > 0 then ⟨(nameSelector.data.drop start).take off⟩ else ""
        | none => ""
      | none => ""
    else pyStrip nameSelector
  if name.data.isEmpty && !fieldName.data.isEmpty then fieldName else name

/-- Assemble `all_radios` from the index list returned by the page
script, keeping indices whose `nth` locator still resolves. -/
def collectRadios : List Nat → M (List Nat)
  | [] => pure []
  | i :: rest => do
    let keep ← tryCatchM
      (do
        let n ← pNat "count" ("radio-nth:" ++ toString i)
        pure (decide (n > 0)))
      (pure false)
    let others ← collectRadios rest
    pure (if keep then i :: others else others)

/-- One radio of the first fallback: label match (exact, value-in-label,
label-in-value), then value match. -/
def radioFallback1Body (value : String) (i : Nat) : M (Option Bool) := do
  let radioLoc := "radio-nth:" ++ toString i
  let radioLabel ← pOptStr "js_radio_label2" radioLoc
  let radioValue ← pOptStr "get_attribute value" radioLoc
  let valueLower := pyStrip (pyLower value)
  let r1 ←
    match radioLabel with
    | some rl =>
      if !rl.data.isEmpty then
        let labelLower := pyStrip (pyLower rl)
        if labelLower == valueLower then checkRadioAndVerify radioLoc
        else if pyIn valueLower labelLower then checkRadioAndVerify radioLoc
        else if pyIn labelLower valueLower then checkRadioAndVerify radioLoc
        else pure none
      else pure none
    | none => pure none
  match r1 with
  | some b => pure (some b)
  | none =>
    match radioValue with
    | some rv =>
      if !rv.data.isEmpty then
        let rvLower := pyStrip (pyLower rv)
        if rvLower == valueLower || pyIn valueLower rvLower || pyIn rvLower valueLower then
          checkRadioAndVerify radioLoc
        else pure none
      else pure none
    | none => pure none

/-- First fallback (lines 214–382): find all radios with the group name
through a page script and match labels/values. -/
def radioFallback1 (nameSelector value fieldName : String) : M (Option Bool) :=
  tryCatchM
    (do
      let name := extractRadioName nameSelector fieldName
      if !name.data.isEmpty then do
        let radioIndices ← pNats "js_find_radio_indices" name
        let allRadios ← collectRadios radioIndices
        firstSomeM (fun i => tryCatchM (radioFallback1Body value i) (pure none)) allRadios
      else pure none)
    (pure none)

/-- Second fallback (lines 384–426): scan all labels containing the
value text; follow `for` attributes into same-named radios.  In the
`else` arm the source awaits a non-awaitable `Locator`
(`await label.locator(...).first`), which raises `TypeError` into the
enclosing handler — modelled as an immediate caught throw. -/
def radioFallback2 (nameSelector value : String) : M (Option Bool) :=
  tryCatchM
    (do
      let name := ⟨pyReplace "[name=\"".data "".data (pyReplace "\"]".data "".data nameSelector.data)⟩
      if !(name : String).data.isEmpty then do
        let n ← pNat "all" "label"
        firstSomeM
          (fun i =>
            tryCatchM
              (do
                let labLoc := "label-nth:" ++ toString i
                let labelText ← pOptStr "text_content" labLoc
                match labelText with
                | some lt =>
                  if !lt.data.isEmpty && pyIn (pyLower value) (pyStrip (pyLower lt)) then do
                    let labelFor ← pOptStr "get_attribute for" labLoc
                    if optTruthy labelFor then do
                      let radioLoc := "#" ++ labelFor.getD ""
                      let cnt ← pNat "count" radioLoc
                      if cnt > 0 then do
                        let radioName ← pOptStr "get_attribute name" radioLoc
                        if radioName == some name then checkRadioAndVerify radioLoc
                        else pure none
                      else pure none
                    else do
                      tryCatchM throwM (pure ())
                      pure none
                  else pure none
                | none => pure none)
              (pure none))
          (List.range n)
      else pure none)
    (pure none)

/-- Third fallback (lines 429–462): labels filtered by the value text,
accepted when their serialized ancestor context contains the field
label; clicking the label is reported as success without verification. -/
def radioFallback3 (nameSelector value fieldLabel : String) : M (Option Bool) :=
  tryCatchM
    (do
      let name := ⟨pyReplace "[name=\"".data "".data (pyReplace "\"]".data "".data nameSelector.data)⟩
      if !(name : String).data.isEmpty && !fieldLabel.data.isEmpty then do
        let n ← pNat "all_filter_has_text" value
        firstSomeM
          (fun i =>
            tryCatchM
              (do
                let labLoc := "flabel-nth:" ++ toString i
                let labelContext ← pOptStr "js_label_context" labLoc
                match labelContext with
                | some lc =>
                  if !lc.data.isEmpty && pyIn (pyLower fieldLabel) (pyLower lc) then do
                    pUnit "scroll_into_view" labLoc ""
                    pUnit "click" labLoc ""
                    pUnit "wait_timeout" "" "200"
                    pure (some true)
                  else pure none
                | none => pure none)
              (pure none))
          (List.range n)
      else pure none)
    (pure none)

/-- `RadioFieldFiller.fill`. -/
def radioFill (nameSelector value fieldName fieldLabel : String)
    (locator : Option String) : M Bool := do
  let start : M (Option Bool) :=
    match locator with
    | some loc => radioLocatorBlock value fieldLabel loc
    | none => pure none
  let r0 ← start
  match r0 with
  | some b => pure b
  | none => do
    let r1 ← radioFallback1 nameSelector value fieldName
    match r1 with
    | some b => pure b
    | none => do
      let r2 ← radioFallback2 nameSelector value
      match r2 with
      | some b => pure b
      | none => do
        let r3 ← radioFallback3 nameSelector value fieldLabel
        match r3 with
        | some b => pure b
        | none => pure false

theorem noThrow_radioFill (nameSelector value fieldName fieldLabel : String)
    (locator : Option String) :
    NoThrow (radioFill nameSelector value fieldName fieldLabel locator) := by
  apply noThrow_bind
  · cases locator with
    | some loc => exact noThrow_tryCatch _ (noThrow_pure none)
    | none => exact noThrow_pure none
  · intro r0
    cases r0 with
    | some b => exact noThrow_pure b
    | none =>
      apply noThrow_bind (noThrow_tryCatch _ (noThrow_pure none))
      intro r1
      cases r1 with
      | some b => exact noThrow_pure b
      | none =>
        apply noThrow_bind (noThrow_tryCatch _ (noThrow_pure none))
        intro r2
        cases r2 with
        | some b => exact noThrow_pure b
        | none =>
          apply noThrow_bind (noThrow_tryCatch _ (noThrow_pure none))
          intro r3
          cases r3 with
          | some b => exact noThrow_pure b
          | none => exact noThrow_pure false

/-! ### `file_upload_filler.py` -/

/-- `re.search(r'name=["\']([^"\']+)["\']', sel)` at one position. -/
def matchNameAt (l : List Char) : Option String :=
  if isPrefixList "name=".data l then
    match l.drop 5 with
    | q :: rest =>
      if q == '"' || q == '\'' then
        let cap := rest.takeWhile (fun c => !(c == '"' || c == '\''))
        -- a closing quote must follow the nonempty capture
        if !cap.isEmpty && cap.length < rest.length then some ⟨cap⟩ else none
      else none
    | [] => none
  else none

/-- Scan for the first `name=…` capture. -/
def scanForName : List Char → Option String
  | [] => none
  | c :: t =>
    match matchNameAt (c :: t) with
    | some s => some s
    | none => scanForName t

/-- `\w` or `-`. -/
def isWordDash (c : Char) : Bool := c.isAlphanum || c == '_' || c == '-'

/-- `re.search(r'#([\w-]+)', sel)`. -/
def scanForHashId : List Char → Option String
  | [] => none
  | c :: t =>
    if c == '#' then
      let cap := t.takeWhile isWordDash
      if !cap.isEmpty then some ⟨cap⟩ else scanForHashId t
    else scanForHashId t

/-- `re.search(r'id=["\']([^"\']+)["\']', sel)` at one position. -/
def matchIdEqAt (l : List Char) : Option String :=
  if isPrefixList "id=".data l then
    match l.drop 3 with
    | q :: rest =>
      if q == '"' || q == '\'' then
        let cap := rest.takeWhile (fun c => !(c == '"' || c == '\''))
        if !cap.isEmpty && cap.length < rest.length then some ⟨cap⟩ else none
      else none
    | [] => none
  else none

/-- Scan for the first `id=…` capture. -/
def scanForIdEq : List Char → Option String
  | [] => none
  | c :: t =>
    match matchIdEqAt (c :: t) with
    | some s => some s
    | none => scanForIdEq t

/-- `re.search('#([\w-]+)') or re.search('id=["\']([^"\']+)["\']')`. -/
def extractIdFromSelector (sel : String) : Option String :=
  match scanForHashId sel.data with
  | some s => some s
  | none => scanForIdEq sel.data

/-- Strategy 0 of the file filler: the finest-jobs-style `span` whose id
is the text input's id plus `_add`, holding the hidden file input. -/
def fileS0Body (absPath sel : String) : M (Option Bool) := do
  let nameMatch := scanForName sel.data
  let idMatch := extractIdFromSelector sel
  if nameMatch.isSome || idMatch.isSome then do
    let textInputId ←
      match idMatch with
      | some fid => pure (some fid)
      | none =>
        match nameMatch with
        | some nm => do
          let tiLoc := "input[name=\"" ++ nm ++ "\"]"
          let cnt ← pNat "count" tiLoc
          if cnt > 0 then pOptStr "get_attribute id" tiLoc
          else pure none
        | none => pure none
    if optTruthy textInputId then do
      let addSpanId := textInputId.getD "" ++ "_add"
      let spanLoc := "span#" ++ addSpanId
      let spanCnt ← pNat "count" spanLoc
      if spanCnt > 0 then
        tryCatchM
          (do
            let fiLoc := spanLoc ++ " input[type=file]"
            let fiCnt ← pNat "count" fiLoc
            if fiCnt > 0 then do
              pUnit "scroll_into_view" spanLoc ""
              pUnit "wait_timeout" "" "200"
              tryU (do pUnit "click" spanLoc ""; pUnit "wait_timeout" "" "300")
              tryCatchM
                (do
                  pUnit "set_input_files" fiLoc absPath
                  pUnit "js_dispatch_change" fiLoc ""
                  pUnit "js_dispatch_change" spanLoc ""
                  pUnit "wait_timeout" "" "2000"
                  let fileCount ← pNat "js_files_length" fiLoc
                  if fileCount > 0 then pure (some true) else pure none)
                (pure none)
            else pure none)
          (pure none)
      else pure none
    else pure none
  else pure none

/-- The `_add`-span upload with event dispatch and multi-signal
verification (lines 153–306); an unclear verification still reports
success. -/
def fileSpanUpload (absPath tid : String) : M (Option Bool) := do
  let tiLoc := "input-id:" ++ tid
  let asLoc := "span[id=\"" ++ tid ++ "_add\"] input[type=file]"
  let addSpanCount ← pNat "count" asLoc
  let rA ←
    if addSpanCount > 0 then
      tryCatchM
        (do
          pUnit "scroll_into_view" asLoc ""
          pUnit "wait_timeout" "" "200"
          let _ ← pBool "is_visible" asLoc
          tryU (do pUnit "click" asLoc ""; pUnit "wait_timeout" "" "300")
          -- set the file; on failure click via script and retry, and on a
          -- second failure re-raise the original error
          tryCatchM (pUnit "set_input_files" asLoc absPath)
            (tryCatchM
              (do pUnit "js_click_input" asLoc ""; pUnit "set_input_files" asLoc absPath)
              throwM)
          pUnit "wait_timeout" "" "500"
          let _ ← pNat "js_files_length" asLoc
          pUnit "js_dispatch_events" asLoc ""
          pUnit "js_dispatch_events" tiLoc ""
          pUnit "js_form_change" tid ""
          pUnit "wait_timeout" "" "3000"
          let fileInputFiles ← pNat "js_files_length" asLoc
          if fileInputFiles > 0 then do
            let _ ← pStr "js_file_name" asLoc
            pure ()
          else pure ()
          let textInputValue ← pStr "input_value" tiLoc
          let previewVisible ← pBool "is_visible" ("img#" ++ tid ++ "_preview")
          let uploadIndicators ← pNats "js_upload_indicators" tid
          if fileInputFiles > 0 || !textInputValue.data.isEmpty || previewVisible ||
              !uploadIndicators.isEmpty then
            pure (some true)
          else
            -- verification UNCLEAR — still reported as success
            pure (some true))
        (pure none)
    else pure none
  match rA with
  | some b => pure (some b)
  | none => do
    -- alternative: the span by id, then a file input inside it
    let altLoc := "span[id=\"" ++ tid ++ "_add\"]"
    let altCount ← pNat "count" altLoc
    if altCount > 0 then do
      let fiInSpan := altLoc ++ " input[type=file]"
      let fic ← pNat "count" fiInSpan
      if fic > 0 then
        tryCatchM
          (do
            pUnit "set_input_files" fiInSpan absPath
            pUnit "wait_timeout" "" "1000"
            pure (some true))
          (pure none)
      else pure none
    else pure none

/-- Strategy 1 (plus the embedded strategy 2) of the file filler, for
one selector: direct file input by name, the `_add`-span route via the
text input's id, a span addressed by the captured id, and finally the
original selector itself or a file input among its ancestors. -/
def fileS1Body (absPath sel : String) : M (Option Bool) := do
  let nameMatch := scanForName sel.data
  let idMatch := extractIdFromSelector sel
  let rName ←
    match nameMatch with
    | some name => do
      let fiLoc := "input[type=file][name=\"" ++ name ++ "\"]"
      let c1 ← pNat "count" fiLoc
      let r ←
        if c1 > 0 then
          tryCatchM
            (do
              pUnit "set_input_files" fiLoc absPath
              pUnit "wait_timeout" "" "500"
              pure (some true))
            (pure none)
        else pure none
      match r with
      | some b => pure (some b)
      | none => do
        let tiLoc := "input[name=\"" ++ name ++ "\"]"
        let c2 ← pNat "count" tiLoc
        if c2 > 0 then do
          let textInputId ← pOptStr "get_attribute id" tiLoc
          if optTruthy textInputId then fileSpanUpload absPath (textInputId.getD "")
          else pure none
        else pure none
    | none => pure none
  match rName with
  | some b => pure (some b)
  | none => do
    let rId ←
      match idMatch with
      | some fid => do
        let asLoc := "span[id=\"" ++ fid ++ "_add\"] input[type=file]"
        let c ← pNat "count" asLoc
        if c > 0 then
          tryCatchM
            (do
              pUnit "set_input_files" asLoc absPath
              pUnit "wait_timeout" "" "500"
              pure (some true))
            (pure none)
        else pure none
      | none => pure none
    match rId with
    | some b => pure (some b)
    | none => do
      let c ← pNat "count" sel
      if c > 0 then do
        let inputType ← pOptStr "get_attribute type" sel
        if inputType == some "file" then
          tryCatchM
            (do
              pUnit "set_input_files" sel absPath
              pUnit "wait_timeout" "" "500"
              pure (some true))
            (pure none)
        else
          tryCatchM
            (do
              let nearLoc := sel ++ " xpath=ancestor-file-input"
              let nc ← pNat "count" nearLoc
              if nc > 0 then do
                pUnit "set_input_files" nearLoc absPath
                pUnit "wait_timeout" "" "500"
                pure (some true)
              else pure none)
            (pure none)
      else pure none

/-- Strategy 3 of the file filler: scan all file inputs for one whose
`name` attribute equals the captured name. -/
def fileS3 (absPath : String) (selectors : List String) : M (Option Bool) :=
  tryCatchM
    (firstSomeM
      (fun sel => do
        match scanForName sel.data with
        | some name => do
          let n ← pNat "all" "input[type=file]"
          firstSomeM
            (fun i => do
              let fiLoc := "file-nth:" ++ toString i
              let finame ← pOptStr "get_attribute name" fiLoc
              if finame == some name then
                tryCatchM
                  (do
                    pUnit "set_input_files" fiLoc absPath
                    pUnit "wait_timeout" "" "500"
                    pure (some true))
                  (pure none)
              else pure none)
            (List.range n)
        | none => pure none)
      selectors)
    (pure none)

/-- The fixed drag-and-drop zone selectors of strategy 4. -/
def dropzoneSelectors : List String :=
  [".dropzone", "[class*=dropzone]", "[class*=drop-zone]", "[class*=file-drop]",
   "[data-dropzone]", "[id*=dropzone]", "[id*=drop-zone]"]

/-- Strategy 4 of the file filler: a hidden file input inside a visible
drop zone. -/
def fileS4 (absPath : String) : M (Option Bool) :=
  tryCatchM
    (firstSomeM
      (fun dzSel =>
        tryCatchM
          (do
            let c ← pNat "count" dzSel
            if c > 0 then do
              let isv ← pBool "is_visible" dzSel
              if isv then do
                let fiLoc := dzSel ++ " input[type=file]"
                let fc ← pNat "count" fiLoc
                if fc > 0 then do
                  pUnit "set_input_files" fiLoc absPath
                  pUnit "wait_timeout" "" "500"
                  pure (some true)
                else pure none
              else pure none
            else pure none)
          (pure none))
      dropzoneSelectors)
    (pure none)

/-- `FileUploadFiller.fill`: resolve the configured path against the
package directory (`os.path.dirname(os.path.dirname(__file__))`, the
parameter `baseDir`, which coincides with `resolve_file_path`'s own
default parent directory), fail fast when the file does not exist on
the abstract file system `fs` — before any page operation — and
otherwise run the four strategies.  (`os.path.getsize` only feeds a
log line and is not modelled.) -/
def fileFill (fs : String → Bool) (cwd baseDir : String)
    (selectors : List String) (filePath : String) : M Bool := do
  let absPath := resolve_file_path filePath (some baseDir) cwd baseDir
  if !fs absPath then pure false
  else do
    let s0 ← firstSomeM (fun sel => tryCatchM (fileS0Body absPath sel) (pure none)) selectors
    match s0 with
    | some b => pure b
    | none => do
      let s1 ← firstSomeM (fun sel => tryCatchM (fileS1Body absPath sel) (pure none)) selectors
      match s1 with
      | some b => pure b
      | none => do
        let s3 ← fileS3 absPath selectors
        match s3 with
        | some b => pure b
        | none => do
          let s4 ← fileS4 absPath
          match s4 with
          | some b => pure b
          | none => pure false

theorem noThrow_fileFill (fs : String → Bool) (cwd baseDir : String)
    (selectors : List String) (filePath : String) :
    NoThrow (fileFill fs cwd baseDir selectors filePath) := by
  unfold fileFill
  dsimp only
  split
  · exact noThrow_pure false
  · apply noThrow_bind (noThrow_wrappedLoop _ selectors)
    intro s0
    cases s0 with
    | some b => exact noThrow_pure b
    | none =>
      apply noThrow_bind (noThrow_wrappedLoop _ selectors)
      intro s1
      cases s1 with
      | some b => exact noThrow_pure b
      | none =>
        apply noThrow_bind (noThrow_tryCatch _ (noThrow_pure none))
        intro s3
        cases s3 with
        | some b => exact noThrow_pure b
        | none =>
          apply noThrow_bind (noThrow_tryCatch _ (noThrow_pure none))
          intro s4
          cases s4 with
          | some b => exact noThrow_pure b
          | none => exact noThrow_pure false

/-! ### `date_picker_filler.py` -/

/-- Python list indexing with negative wrap-around
(`month_names[month_num - 1]` can see `-1` for a `00` month). -/
def pyIndex (l : List String) (i : Int) : Option String :=
  if 0 ≤ i then l.get? i.toNat
  else if i.natAbs ≤ l.length then l.get? (l.length - i.natAbs)
  else none

def monthNames : List String :=
  ["January", "February", "March", "April", "May", "June",
   "July", "August", "September", "October", "November", "December"]

def monthNamesDe : List String :=
  ["Januar", "Februar", "März", "April", "Mai", "Juni",
   "Juli", "August", "September", "Oktober", "November", "Dezember"]

def monthShortNames : List String :=
  ["Jan", "Feb", "Mar", "Apr", "May", "Jun", "Jul", "Aug", "Sep", "Oct", "Nov", "Dec"]

def monthShortNamesDe : List String :=
  ["Jan", "Feb", "Mär", "Apr", "Mai", "Jun", "Jul", "Aug", "Sep", "Okt", "Nov", "Dez"]

/-- The calendar-widget container selectors. -/
def calendarSelectors : List String :=
  [".calendar", ".datepicker", ".flatpickr-calendar",
   ".ui-datepicker", "[class*=calendar]", "[class*=datepicker]",
   ".react-datepicker", ".air-datepicker", ".air-datepicker-body",
   "[class*=react-datepicker]", "[class*=air-datepicker]"]

/-- The year-dropdown selectors. -/
def yearSelectors (year : String) : List String :=
  ["select:has-text(" ++ year ++ ")",
   "select option[value=" ++ year ++ "]",
   "[aria-label*=year i] select",
   "select[name*=year i]",
   ".ui-datepicker-year",
   "select.ui-datepicker-year"]

/-- The month-dropdown selectors. -/
def monthSelectorsList (monthNum : Int) (month monthName monthNameDe monthShortName monthShortNameDe : String) : List String :=
  ["select option[value=" ++ pyIntToStr monthNum ++ "]",
   "select option[value=" ++ month ++ "]",
   "select option[value=0" ++ pyIntToStr monthNum ++ "]",
   "select:has-text(" ++ monthName ++ ")",
   "select:has-text(" ++ monthNameDe ++ ")",
   "select:has-text(" ++ monthShortName ++ ")",
   "select:has-text(" ++ monthShortNameDe ++ ")",
   "[aria-label*=month i] select",
   "select[name*=month i]",
   ".ui-datepicker-month",
   "select.ui-datepicker-month"]

/-- The day-cell selectors. -/
def daySelectors (day : String) (dayNum : Int) : List String :=
  ["button:has-text(" ++ pyIntToStr dayNum ++ ")",
   "td:has-text(" ++ pyIntToStr dayNum ++ ")",
   "a:has-text(" ++ pyIntToStr dayNum ++ ")",
   "[data-day=" ++ day ++ "]",
   "[data-day=" ++ pyIntToStr dayNum ++ "]",
   ".day:has-text(" ++ pyIntToStr dayNum ++ ")",
   "td a:has-text(" ++ pyIntToStr dayNum ++ ")"]

/-- `validate_date` as the fillers call it: `int(day)`/`int(month)`
inside it raise on non-numeric components. -/
def validateDateM (currentValue expectedDate year month day : String) : M Bool :=
  match pyParseInt day, pyParseInt month with
  | some dn, some mn => pure (validate_date currentValue expectedDate year month day dn mn)
  | _, _ => throwM

/-- The smart-date search terms. -/
def dateSearchTerms : List String :=
  ["geburtsdatum", "birth date", "date of birth", "geburt", "datum", "date_of_birth"]

/-- `_select_from_calendar`'s month step: pick the month dropdown and
try index (with the given 0/1 offset), value, then label variants.
A month number out of the table's range raises `IndexError` (caught by
the month step's handler). -/
def monthSelection (monthNum : Int) (month : String) (offset : Int) : M Unit := do
  match pyIndex monthNames (monthNum - 1), pyIndex monthNamesDe (monthNum - 1),
      pyIndex monthShortNames (monthNum - 1), pyIndex monthShortNamesDe (monthNum - 1) with
  | some monthName, some monthNameDe, some monthShortName, some monthShortNameDe =>
    let selList := monthSelectorsList monthNum month monthName monthNameDe monthShortName monthShortNameDe
    let _ ← firstSomeM
      (fun ms =>
        tryCatchM
          (do
            let isv ← pBool "is_visible" ms
            if isv then
              tryCatchM
                (do
                  pUnit "select_option_index" ms (pyIntToStr (monthNum - 1 + offset))
                  pUnit "wait_timeout" "" "300"
                  pure (some ()))
                (tryCatchM
                  (do
                    pUnit "select_option_value" ms month
                    pUnit "wait_timeout" "" "300"
                    pure (some ()))
                  (tryCatchM
                    (do
                      pUnit "select_option_value" ms (pyIntToStr monthNum)
                      pUnit "wait_timeout" "" "300"
                      pure (some ()))
                    (tryCatchM
                      (do
                        pUnit "select_option_label" ms monthShortNameDe
                        pUnit "wait_timeout" "" "300"
                        pure (some ()))
                      (tryCatchM
                        (do
                          pUnit "select_option_label" ms monthShortName
                          pUnit "wait_timeout" "" "300"
                          pure (some ()))
                        (tryCatchM
                          (do
                            pUnit "select_option_label" ms monthNameDe
                            pUnit "wait_timeout" "" "300"
                            pure (some ()))
                          (tryCatchM
                            (do
                              pUnit "select_option_label" ms monthNameEn
                              pUnit "wait_timeout" "" "300"
                              pure (some ()))
                            (pure none)))))))
            else pure none)
          (pure none))
      selList
    pure ()
  | _, _, _, _ => throwM
where
  monthNameEn := (pyIndex monthNames (monthNum - 1)).getD ""

/-- `DatePickerFiller._select_from_calendar`: wait for a calendar
container, select year and month dropdowns (failures tolerated), then
click a day cell. -/
def selectFromCalendar (year month day : String) (monthNum dayNum offset : Int) : M Bool :=
  tryCatchM
    (do
      -- day_num/month_num were parsed by the caller; `int(year)` may raise
      match pyParseInt year with
      | none => throwM
      | some _ => do
        let r ← firstSomeM
          (fun calSel =>
            tryCatchM
              (do
                pUnit "wait_for_visible" calSel "1000"
                let n ← pNat "count" calSel
                if n > 0 then do
                  -- Step 1: year dropdown
                  tryU (do
                    let _ ← firstSomeM
                      (fun ys =>
                        tryCatchM
                          (do
                            let isv ← pBool "is_visible" ys
                            if isv then
                              tryCatchM
                                (do
                                  pUnit "select_option_value" ys year
                                  pUnit "wait_timeout" "" "200"
                                  pure (some ()))
                                (tryCatchM
                                  (do
                                    pUnit "select_option_label" ys year
                                    pUnit "wait_timeout" "" "200"
                                    pure (some ()))
                                  (pure none))
                            else pure none)
                          (pure none))
                      (yearSelectors year)
                    pure ())
                  -- Step 2: month dropdown
                  tryU (monthSelection monthNum month offset)
                  -- Step 3: day cell
                  pUnit "wait_timeout" "" "300"
                  firstSomeM
                    (fun ds =>
                      tryCatchM
                        (do
                          let isv ← pBool "is_visible" ds
                          if isv then do
                            pUnit "click" ds ""
                            pUnit "wait_timeout" "" "200"
                            pure (some true)
                          else pure none)
                        (pure none))
                    (daySelectors day dayNum)
                else pure none)
              (pure none))
          calendarSelectors
        pure (r.getD false))
    (pure false)

/-- `DatePickerFiller._try_calendar_selection`. -/
def tryCalendarSelection (sel year month day : String) (monthNum dayNum offset : Int) : M Bool :=
  tryCatchM
    (do
      pUnit "click" sel ""
      pUnit "wait_timeout" "" "300"
      let dateSelected ← selectFromCalendar year month day monthNum dayNum offset
      if dateSelected then do
        pUnit "wait_timeout" "" "300"
        let cv ← pStr "input_value" sel
        validateDateM cv (year ++ "-" ++ month ++ "-" ++ day) year month day
      else pure false)
    (pure false)

/-- `DatePickerFiller._fill_with_validation_and_retry`: calendar
selection with 0-based then 1-based month indices, then direct fills in
the common textual formats.  `int(month)`/`int(day)` raise on
non-numeric components (into the caller's handler). -/
def fillWithValidationAndRetry (sel year month day : String) : M Bool := do
  match pyParseInt month, pyParseInt day with
  | some monthNum, some dayNum => do
    let s1 ← tryCalendarSelection sel year month day monthNum dayNum 0
    if s1 then pure true
    else do
      let s2 ← tryCalendarSelection sel year month day monthNum dayNum 1
      if s2 then pure true
      else do
        let formats := get_date_formats year month day dayNum monthNum
        let r ← firstSomeM
          (fun dateFormat =>
            tryCatchM
              (do
                pUnit "clear" sel ""
                pUnit "fill" sel dateFormat
                pUnit "wait_timeout" "" "200"
                pUnit "press" "" "Tab"
                pUnit "wait_timeout" "" "200"
                let cv ← pStr "input_value" sel
                let ok ← validateDateM cv (year ++ "-" ++ month ++ "-" ++ day) year month day
                if ok then pure (some true) else pure none)
              (pure none))
          formats
        pure (r.getD false)
  | _, _ => throwM

/-- One selector attempt of `DatePickerFiller.fill`. -/
def dateBody (normalizedDate year month day sel : String)
    (retry : String → M Bool) : M (Option Bool) := do
  let isVisible ← pBool "is_visible" sel
  let proceed ←
    if !isVisible then
      tryCatchM (do pUnit "wait_for_visible" sel "500"; pure true) (pure false)
    else pure true
  if !proceed then pure none
  else do
    let n ← pNat "count" sel
    if n > 0 then do
      pUnit "scroll_into_view" sel ""
      let inputType ← pOptStr "get_attribute type" sel
      if inputType == some "date" then do
        pUnit "js_set_date_value" sel normalizedDate
        let currentValue ← pStr "input_value" sel
        let ok ← validateDateM currentValue normalizedDate year month day
        if ok then pure (some true) else pure none
      else do
        let filled ← retry sel
        if filled then pure (some true) else pure none
    else pure none

/-- `DatePickerFiller._smart_date_picker_detection`, parameterized over
the recursive re-entry into `fill`. -/
def smartDateDetection (recurse : List String → M Bool) (dateValue : String) : M Bool := do
  let normalizedDate := normalize_date dateValue
  let parts := splitOnChar '-' normalizedDate.data
  if parts.length != 3 then pure false
  else do
    let r ← firstSomeM
      (fun term =>
        tryCatchM
          (do
            let labLoc := "label:has-text(" ++ term ++ ") i"
            let labelCount ← pNat "count" labLoc
            let r1 ←
              if labelCount > 0 then do
                let labelFor ← pOptStr "get_attribute for" labLoc
                if optTruthy labelFor then do
                  let lf := labelFor.getD ""
                  let isv ← pBool "is_visible" ("#" ++ lf)
                  if isv then do
                    let filled ← recurse ["#" ++ lf]
                    if filled then pure (some true) else pure none
                  else pure none
                else pure none
              else pure none
            match r1 with
            | some b => pure (some b)
            | none => do
              let ariaLoc := "input[aria-label*=" ++ term ++ " i]"
              let isv2 ← pBool "is_visible" ariaLoc
              let r2 ←
                if isv2 then do
                  let filled ← recurse [ariaLoc]
                  if filled then pure (some true) else pure none
                else pure none
              match r2 with
              | some b => pure (some b)
              | none => do
                let niLoc := "input[name*=" ++ term ++ " i], input[id*=" ++ term ++ " i]"
                let isv3 ← pBool "is_visible" niLoc
                if isv3 then do
                  let nm ← pOptStr "get_attribute name" niLoc
                  let fid ← pOptStr "get_attribute id" niLoc
                  let selector : Option String :=
                    if optTruthy nm then some ("input[name=\"" ++ nm.getD "" ++ "\"]")
                    else if optTruthy fid then some ("input[id=\"" ++ fid.getD "" ++ "\"]")
                    else none
                  match selector with
                  | some s => do
                    let filled ← recurse [s]
                    if filled then pure (some true) else pure none
                  | none => pure none
                else pure none)
          (pure none))
      dateSearchTerms
    pure (r.getD false)

/-- `DatePickerFiller.fill`: normalize and split the date; per selector
either assign a native date input directly (and validate the re-read
value) or run the calendar/textual retry ladder; on exhaustion fall
back to smart detection, which recurses into `fill` on the fields it
finds.  `fuel` bounds the recursion depth (Python bounds it by the
interpreter's recursion limit, whose `RecursionError` is swallowed by
the surrounding handlers). -/
def dateFill : Nat → List String → String → M Bool
  | 0, _, _ => pure false
  | fuel + 1, selectors, dateValue => do
    let normalizedDate := normalize_date dateValue
    let parts := splitOnChar '-' normalizedDate.data
    if parts.length != 3 then pure false
    else do
      let year : String := ⟨parts.getD 0 []⟩
      let month : String := ⟨parts.getD 1 []⟩
      let day : String := ⟨parts.getD 2 []⟩
      let r ← firstSomeM
        (fun sel =>
          tryCatchM
            (dateBody normalizedDate year month day sel
              (fun s => fillWithValidationAndRetry s year month day))
            (pure none))
        selectors
      match r with
      | some b => pure b
      | none => smartDateDetection (fun sels => dateFill fuel sels dateValue) dateValue

theorem noThrow_ite {α : Type} {c : Prop} [Decidable c] {x y : M α}
    (hx : NoThrow x) (hy : NoThrow y) : NoThrow (if c then x else y) := by
  by_cases h : c
  · simpa [h] using hx
  · simpa [h] using hy

theorem noThrow_smartDateDetection (recurse : List String → M Bool) (dateValue : String) :
    NoThrow (smartDateDetection recurse dateValue) :=
  noThrow_ite (noThrow_pure false)
    (noThrow_bind (noThrow_wrappedLoop _ dateSearchTerms)
      (fun r => noThrow_pure (r.getD false)))

theorem noThrow_dateFill (fuel : Nat) (selectors : List String) (dateValue : String) :
    NoThrow (dateFill fuel selectors dateValue) := by
  cases fuel with
  | zero => exact noThrow_pure false
  | succ fuel =>
    refine noThrow_ite (noThrow_pure false) ?_
    apply noThrow_bind (noThrow_wrappedLoop _ selectors)
    intro r
    cases r with
    | some b => exact noThrow_pure b
    | none => exact noThrow_smartDateDetection _ _

/-! ## Claim theorems -/

/-! ### C9 / C10 — `normalize_date` -/

theorem digit_beq_dot (c : Char) (h : c.isDigit = true) : (c == '.') = false := by
  cases hbe : c == '.' with
  | false => rfl
  | true =>
    have hc : c = '.' := eq_of_beq hbe
    subst hc
    exact absurd h (by decide)

theorem digit_beq_dash (c : Char) (h : c.isDigit = true) : (c == '-') = false := by
  cases hbe : c == '-' with
  | false => rfl
  | true =>
    have hc : c = '-' := eq_of_beq hbe
    subst hc
    exact absurd h (by decide)

/-- C9: Date normalization is idempotent on the inputs `"2024-01-05"`,
`"05.01.2024"` and `"2024"`: applying `normalize_date` to the
already-normalized date returns it unchanged. -/
theorem claim_C9 :
    normalize_date (normalize_date "2024-01-05") = normalize_date "2024-01-05" ∧
    normalize_date (normalize_date "05.01.2024") = normalize_date "05.01.2024" ∧
    normalize_date (normalize_date "2024") = normalize_date "2024" := by
  refine ⟨?_, ?_, ?_⟩ <;> decide

/-- C10: `normalize_date` is total and performs no calendar-range
validation: every `DD.MM.YYYY`-shaped string is rearranged digit-blind
to `YYYY-MM-DD` (so `"99.13.2024"` yields `"2024-13-99"`); every
four-digit string `s` becomes `s ++ "-01-01"`; and every string that
matches none of the three recognized patterns and is not
`strptime`-parseable as `%Y-%m-%d` is returned unchanged.  Totality
(the claim's "never raises") holds by construction of the embedding:
the bare `except` of the source swallows the only fallible step. -/
theorem claim_C10 :
    (∀ d1 d2 m1 m2 y1 y2 y3 y4 : Char,
      d1.isDigit = true → d2.isDigit = true → m1.isDigit = true → m2.isDigit = true →
      y1.isDigit = true → y2.isDigit = true → y3.isDigit = true → y4.isDigit = true →
      normalize_date ⟨[d1, d2, '.', m1, m2, '.', y1, y2, y3, y4]⟩ =
        ⟨[y1, y2, y3, y4, '-', m1, m2, '-', d1, d2]⟩) ∧
    (∀ a b c d : Char,
      a.isDigit = true → b.isDigit = true → c.isDigit = true → d.isDigit = true →
      normalize_date ⟨[a, b, c, d]⟩ = (⟨[a, b, c, d]⟩ : String) ++ "-01-01") ∧
    (∀ s : String, matchYMD s.data = false → matchDMY s.data = false →
      matchY4 s.data = false → strptimeParse s.data = none →
      normalize_date s = s) ∧
    normalize_date "99.13.2024" = "2024-13-99" := by
  refine ⟨?_, ?_, ?_, by decide⟩
  · intro d1 d2 m1 m2 y1 y2 y3 y4 h1 h2 h3 h4 h5 h6 h7 h8
    have n1 := digit_beq_dot d1 h1
    have n2 := digit_beq_dot d2 h2
    have n3 := digit_beq_dot m1 h3
    have n4 := digit_beq_dot m2 h4
    have n5 := digit_beq_dot y1 h5
    have n6 := digit_beq_dot y2 h6
    have n7 := digit_beq_dot y3 h7
    have n8 := digit_beq_dot y4 h8
    have e4 := digit_beq_dash m2 h4
    unfold normalize_date
    simp [matchYMD, matchDMY, splitOnChar, h1, h2, h3, h4, h5, h6, h7, h8,
      n1, n2, n3, n4, n5, n6, n7, n8, e4]
  · intro a b c d h1 h2 h3 h4
    unfold normalize_date
    simp [matchYMD, matchDMY, matchY4, h1, h2, h3, h4]
  · intro s h1 h2 h3 h4
    unfold normalize_date
    cases hE : s.data.isEmpty with
    | true =>
      have hS : s = "" := by
        cases s with
        | mk l => cases l with
          | nil => rfl
          | cons c t => simp [List.isEmpty] at hE
      simp [hS]
    | false =>
      simp [hE, h1, h2, h3, h4]

/-- Witness for C10: the universally quantified parts applied at
concrete inputs, with every hypothesis discharged by computation. -/
theorem claim_C10_witness :
    normalize_date ⟨['9', '9', '.', '1', '3', '.', '2', '0', '2', '4']⟩ =
      ⟨['2', '0', '2', '4', '-', '1', '3', '-', '9', '9']⟩ ∧
    normalize_date ⟨['1', '9', '9', '9']⟩ = (⟨['1', '9', '9', '9']⟩ : String) ++ "-01-01" ∧
    normalize_date "hello" = "hello" :=
  ⟨claim_C10.1 '9' '9' '1' '3' '2' '0' '2' '4'
      (by decide) (by decide) (by decide) (by decide)
      (by decide) (by decide) (by decide) (by decide),
   claim_C10.2.1 '1' '9' '9' '9' (by decide) (by decide) (by decide) (by decide),
   claim_C10.2.2.1 "hello" (by decide) (by decide) (by decide) (by decide)⟩

/-! ### C3 — resolution by name / id / label -/

/-- Counterexample to C3: with the talent pool configured as
`salary = "50000"`, `salary_currency = "EUR"`, the semantic key
`salary_currency` resolves to `"EUR"` by name and by id, but to
`"50000"` by label, because the talent-pool label pass is
substring-based in table order and `"salary"` occurs inside
`"salary_currency"`. -/
theorem claim_C3_counterexample :
    getConfigValueForField { name := some "salary_currency" } [] [] []
        [("salary", PyVal.pstr "50000"), ("salary_currency", PyVal.pstr "EUR")] =
      some (PyVal.pstr "EUR") ∧
    getConfigValueForField { id := some "salary_currency" } [] [] []
        [("salary", PyVal.pstr "50000"), ("salary_currency", PyVal.pstr "EUR")] =
      some (PyVal.pstr "EUR") ∧
    getConfigValueForField { label := some "salary_currency" } [] [] []
        [("salary", PyVal.pstr "50000"), ("salary_currency", PyVal.pstr "EUR")] =
      some (PyVal.pstr "50000") ∧
    PyVal.pstr "EUR" ≠ PyVal.pstr "50000" := by
  refine ⟨rfl, rfl, rfl, by decide⟩

/-- C3 (amended): resolution by name and resolution by id always agree
— for every key and every configuration the two lookup chains are
symmetric.  (Resolution by label can differ, as the counterexample
shows.) -/
theorem claim_C3 (k : String) (pi fp q tp : Section') :
    getConfigValueForField { name := some k } pi fp q tp =
      getConfigValueForField { id := some k } pi fp q tp := rfl

/-! ### C6 — word-boundary partial label matching -/

theorem isPrefixList_exists {p l : List Char} (h : isPrefixList p l = true) :
    ∃ t, l = p ++ t := by
  induction p generalizing l with
  | nil => exact ⟨l, rfl⟩
  | cons a as ih =>
    cases l with
    | nil => simp [isPrefixList] at h
    | cons b bs =>
      simp only [isPrefixList, Bool.and_eq_true, beq_iff_eq] at h
      obtain ⟨rfl, h2⟩ := h
      obtain ⟨t, rfl⟩ := ih h2
      exact ⟨t, rfl⟩

theorem findSub_exists {sub l : List Char} {i : Nat} (h : findSub sub l = some i) :
    ∃ pre post, l = pre ++ sub ++ post := by
  induction l generalizing i with
  | nil =>
    unfold findSub at h
    split at h
    · next hsub =>
      refine ⟨[], [], ?_⟩
      simp [List.isEmpty_iff.mp hsub]
    · exact absurd h (by simp)
  | cons c t ih =>
    unfold findSub at h
    split at h
    · next hpre =>
      obtain ⟨rest, hrest⟩ := isPrefixList_exists hpre
      exact ⟨[], rest, by simp [hrest]⟩
    · next hpre =>
      cases hf : findSub sub t with
      | none => rw [hf] at h; exact absurd h (by simp)
      | some j =>
        obtain ⟨pre, post, hpp⟩ := ih hf
        exact ⟨c :: pre, post, by simp [hpp]⟩

/-- C6: the general table's label matching binds a key to a label only
through an occurrence bounded by whitespace or the label's edges — if
`labelBoundaryMatch` (the per-key test of the partial-matching loop in
`_get_config_value_for_field`) accepts, the key occurs in the label
with a space or edge on both sides.  In particular `"date"` inside
`"update"` does not match, and a label in which the key `"year"`
occurs only inside the word `"myyear"` resolves to nothing even though
`birth_year` is configured. -/
theorem claim_C6 :
    (∀ lowerKey lowerLabel : String, labelBoundaryMatch lowerKey lowerLabel = true →
      ∃ pre post : List Char,
        lowerLabel.data = pre ++ lowerKey.data ++ post ∧
        (pre = [] ∨ ∃ pre', pre = pre' ++ [' ']) ∧
        (post = [] ∨ ∃ post', post = ' ' :: post')) ∧
    labelBoundaryMatch "date" "update" = false ∧
    getConfigValueForField { label := some "myyear" }
        [("birth_year", PyVal.pstr "1990")] [] [] [] = none := by
  refine ⟨?_, by decide, rfl⟩
  intro lowerKey lowerLabel h
  unfold labelBoundaryMatch at h
  simp only [Bool.or_eq_true] at h
  rcases h with (h | (h | h) | h)
  · -- exact equality: bounded by both edges
    have : lowerLabel = lowerKey := by
      have := eq_of_beq h
      exact this
    exact ⟨[], [], by simp [this], Or.inl rfl, Or.inl rfl⟩
  · -- label starts with `key ++ " "`
    obtain ⟨t, ht⟩ := isPrefixList_exists h
    refine ⟨[], ' ' :: t, ?_, Or.inl rfl, Or.inr ⟨t, rfl⟩⟩
    have : (lowerKey ++ " ").data = lowerKey.data ++ [' '] := by
      simp [String.data_append]
    rw [ht, this]
    simp
  · -- label ends with `" " ++ key`
    obtain ⟨t, ht⟩ := isPrefixList_exists h
    have hd : (" " ++ lowerKey).data = ' ' :: lowerKey.data := by
      simp [String.data_append]
    have : lowerLabel.data = t.reverse ++ (' ' :: lowerKey.data) := by
      have := congrArg List.reverse ht
      simpa [hd] using this
    refine ⟨t.reverse ++ [' '], [], ?_, Or.inr ⟨t.reverse, rfl⟩, Or.inl rfl⟩
    simp [this]
  · -- an inner occurrence `" " ++ key ++ " "`
    obtain ⟨i, hi⟩ := Option.isSome_iff_exists.mp h
    obtain ⟨pre, post, hpp⟩ := findSub_exists hi
    refine ⟨pre ++ [' '], ' ' :: post, ?_, Or.inr ⟨pre, rfl⟩, Or.inr ⟨post, rfl⟩⟩
    rw [hpp]
    simp

/-- Witness for C6: the bounded-occurrence consequence at the concrete
key `"year"` and label `"birth year"`. -/
theorem claim_C6_witness :
    ∃ pre post : List Char,
      ("birth year" : String).data = pre ++ ("year" : String).data ++ post ∧
      (pre = [] ∨ ∃ pre', pre = pre' ++ [' ']) ∧
      (post = [] ∨ ∃ post', post = ' ' :: post') :=
  claim_C6.1 "year" "birth year" (by decide)

/-! ### C7 — file-path values and partial label matching -/

/-- Counterexample to C7: a configured resume path whose text does not
contain `'./doc/'`, `'.pdf'`, `'.jpg'` or `'.jpeg'` (here
`"resume.docx"`) IS returned by the partial label match for a field
with no name and no id: the exclusion is content-based, not
mapping-based. -/
theorem claim_C7_counterexample :
    getConfigValueForField { label := some "please upload resume now" } []
        [("resume", PyVal.pstr "resume.docx")] [] [] =
      some (PyVal.pstr "resume.docx") := rfl

/-- C7 (amended): the partial-label matching loop of
`_get_config_value_for_field` never returns a string value containing
`'./doc/'`, `'.pdf'`, `'.jpg'` or `'.jpeg'` — file-path values of that
shape can only bind via name or id (or an exact label hit); file-path
values of any other shape are not excluded. -/
theorem claim_C7 (lowerLabel : String) (m : List (String × PyVal)) (v : PyVal)
    (h : labelPartialLookup lowerLabel m = some v) :
    valueSkipsLabelMatch v = false := by
  induction m with
  | nil => simp [labelPartialLookup] at h
  | cons kv rest ih =>
    obtain ⟨key, value⟩ := kv
    unfold labelPartialLookup at h
    split at h
    · exact ih h
    · split at h
      · exact ih h
      · split at h
        · rename_i h1 h2 h3
          cases h
          exact Bool.eq_false_iff.mpr h2
        · exact ih h

/-- Witness for C7: a non-file mapping value returned by the partial
loop is indeed not file-like. -/
theorem claim_C7_witness :
    valueSkipsLabelMatch (PyVal.pstr "John") = false :=
  claim_C7 "enter your first name here" [("first name", PyVal.pstr "John")]
    (PyVal.pstr "John") (by decide)

/-! ### C8 — masked custom widgets in `detect_type` -/

/-- Counterexample to C8: an `input` with `role="combobox"` whose
container holds a hidden native select is NOT classified `'select'`
when its `type` attribute already decides the outcome — `type="email"`
wins and yields `'email'`. -/
theorem claim_C8_counterexample :
    detect_type
        { tag := "input"
          typeAttr := some "email"
          role := some "combobox"
          containerHasAriaHiddenSelect := true } = "email" ∧
    ("email" : String) ≠ "select" := ⟨rfl, by decide⟩

/-- C8 (amended): for text inputs that reach the combobox check (no
overriding `type`, `data-field-type`, `contenteditable` or class
signal), `role="combobox"` backed by a hidden native select in the
container or a `bw-popover`/`bw-select-menu` in the document is
classified `'select'`; and an input with `role="combobox"` is
classified `'autocomplete'` only when neither backing exists. -/
theorem claim_C8 :
    (∀ e : Elem, e.tag = "input" → e.typeAttr = some "text" → e.dataPlaceholder = none →
      e.dataFieldType = none → e.contenteditable = none → e.classAttr = none →
      e.role = some "combobox" →
      (e.containerHasAriaHiddenSelect = true ∨ e.docHasBwPopover = true) →
      detect_type e = "select") ∧
    (∀ e : Elem, e.tag = "input" → e.typeAttr = some "text" → e.dataPlaceholder = none →
      e.dataFieldType = none → e.contenteditable = none → e.classAttr = none →
      e.role = some "combobox" →
      detect_type e = "autocomplete" →
      e.containerHasAriaHiddenSelect = false ∧ e.docHasBwPopover = false) := by
  constructor
  · intro e h1 h2 hdp h3 h4 h5 h6 h7
    unfold detect_type
    rw [h1, h2, hdp, h3, h4, h5, h6]
    rcases h7 with h7 | h7
    · rw [h7]; rfl
    · rw [h7]
      cases e.containerHasAriaHiddenSelect <;> rfl
  · intro e h1 h2 hdp h3 h4 h5 h6
    unfold detect_type
    rw [h1, h2, hdp, h3, h4, h5, h6]
    cases hA : e.containerHasAriaHiddenSelect <;>
      cases hB : e.docHasBwPopover <;>
        cases hC : optTruthy e.ariaControls <;>
          cases hD : optTruthy e.ariaHaspopup <;>
            intro h7 <;>
            first
              | exact ⟨rfl, rfl⟩
              | (have hsel : ("select" : String) = "autocomplete" := h7
                 exact absurd hsel (by decide))

/-- Witness for C8: both parts applied to a concrete masked combobox
and a concrete plain combobox. -/
theorem claim_C8_witness :
    detect_type
        { tag := "input"
          typeAttr := some "text"
          role := some "combobox"
          containerHasAriaHiddenSelect := true } = "select" ∧
    (({ tag := "input", typeAttr := some "text", role := some "combobox" } : Elem).containerHasAriaHiddenSelect = false ∧
      ({ tag := "input", typeAttr := some "text", role := some "combobox" } : Elem).docHasBwPopover = false) :=
  ⟨claim_C8.1
      { tag := "input"
        typeAttr := some "text"
        role := some "combobox"
        containerHasAriaHiddenSelect := true }
      rfl rfl rfl rfl rfl rfl rfl (Or.inl rfl),
   claim_C8.2 { tag := "input", typeAttr := some "text", role := some "combobox" }
      rfl rfl rfl rfl rfl rfl rfl rfl⟩

/-! ### C4 — the required-checkbox sweep -/

lemma cbKeyLE_imp {x y : CBRec} (h : cbKeyLE x y = true) :
    y.hasAsterisk = true → x.hasAsterisk = true := by
  unfold cbKeyLE at h
  cases hb : (x.hasAsterisk == y.hasAsterisk)
  · rw [hb] at h
    simp only [if_neg Bool.false_ne_true] at h
    intro _; exact h
  · intro hy
    rw [eq_of_beq hb, hy]

lemma cbKeyLE_imp' {x y : CBRec} (h : cbKeyLE x y = false) :
    x.hasAsterisk = true → y.hasAsterisk = true := by
  unfold cbKeyLE at h
  cases hb : (x.hasAsterisk == y.hasAsterisk)
  · rw [hb] at h
    simp only [if_neg Bool.false_ne_true] at h
    intro hx; rw [hx] at h; exact Bool.noConfusion h
  · intro hx
    exact (eq_of_beq hb) ▸ hx

lemma mem_cbInsert {z x : CBRec} : ∀ {l : List CBRec}, z ∈ cbInsert x l → z = x ∨ z ∈ l := by
  intro l
  induction l with
  | nil =>
    intro h
    unfold cbInsert at h
    exact Or.inl (List.mem_singleton.mp h)
  | cons y ys ih =>
    intro h
    unfold cbInsert at h
    by_cases hle : cbKeyLE x y = true
    · rw [if_pos hle] at h
      rcases List.mem_cons.mp h with h | h
      · exact Or.inl h
      · exact Or.inr h
    · rw [if_neg hle] at h
      rcases List.mem_cons.mp h with h | h
      · exact Or.inr (by rw [h]; exact List.mem_cons_self y ys)
      · rcases ih h with h | h
        · exact Or.inl h
        · exact Or.inr (List.mem_cons_of_mem _ h)

lemma mem_cbInsert_self (x : CBRec) : ∀ (l : List CBRec), x ∈ cbInsert x l := by
  intro l
  induction l with
  | nil => exact List.mem_singleton.mpr rfl
  | cons y ys ih =>
    unfold cbInsert
    by_cases hle : cbKeyLE x y = true
    · rw [if_pos hle]; exact List.mem_cons_self x (y :: ys)
    · rw [if_neg hle]; exact List.mem_cons_of_mem _ ih

lemma mem_cbInsert_of_mem (x : CBRec) {z : CBRec} :
    ∀ {l : List CBRec}, z ∈ l → z ∈ cbInsert x l := by
  intro l
  induction l with
  | nil => intro h; exact absurd h (List.not_mem_nil z)
  | cons y ys ih =>
    intro h
    unfold cbInsert
    by_cases hle : cbKeyLE x y = true
    · rw [if_pos hle]; exact List.mem_cons_of_mem _ h
    · rw [if_neg hle]
      rcases List.mem_cons.mp h with h | h
      · rw [h]; exact List.mem_cons_self y _
      · exact List.mem_cons_of_mem _ (ih h)

lemma mem_cbSort {z : CBRec} : ∀ {l : List CBRec}, z ∈ l → z ∈ cbSort l := by
  intro l
  induction l with
  | nil => intro h; exact absurd h (List.not_mem_nil z)
  | cons y ys ih =>
    intro h
    show z ∈ cbInsert y (cbSort ys)
    rcases List.mem_cons.mp h with h | h
    · rw [h]; exact mem_cbInsert_self y _
    · exact mem_cbInsert_of_mem y (ih h)

lemma pairwise_cbInsert (x : CBRec) :
    ∀ {l : List CBRec},
      l.Pairwise (fun a b => b.hasAsterisk = true → a.hasAsterisk = true) →
      (cbInsert x l).Pairwise (fun a b => b.hasAsterisk = true → a.hasAsterisk = true) := by
  intro l
  induction l with
  | nil =>
    intro _
    unfold cbInsert
    exact List.Pairwise.cons (fun z hz => absurd hz (List.not_mem_nil z)) List.Pairwise.nil
  | cons y ys ih =>
    intro h
    rcases List.pairwise_cons.mp h with ⟨hy, hys⟩
    unfold cbInsert
    by_cases hle : cbKeyLE x y = true
    · rw [if_pos hle]
      refine List.Pairwise.cons ?_ h
      intro z hz
      rcases List.mem_cons.mp hz with rfl | hz
      · exact cbKeyLE_imp hle
      · intro hza; exact cbKeyLE_imp hle (hy z hz hza)
    · rw [if_neg hle]
      refine List.Pairwise.cons ?_ (ih hys)
      intro z hz
      rcases mem_cbInsert hz with rfl | hz
      · exact cbKeyLE_imp' (Bool.eq_false_iff.mpr hle)
      · exact hy z hz

lemma pairwise_cbSort : ∀ (l : List CBRec),
    (cbSort l).Pairwise (fun a b => b.hasAsterisk = true → a.hasAsterisk = true) := by
  intro l
  induction l with
  | nil => exact List.Pairwise.nil
  | cons x l ih => exact pairwise_cbInsert x ih

lemma cbStep_skip {st : SweepSt} {r : CBRec} (hreq : r.hasAsterisk = false)
    (h : (!r.name.data.isEmpty && st.processed.contains r.name) = true ∨
         (!r.id.data.isEmpty && st.processed.contains r.id) = true ∨
         r.checked = true) :
    cbStep st r = st := by
  unfold cbStep
  rcases h with h | h | h
  · rw [if_pos (show (!r.hasAsterisk &&
        ((!r.name.data.isEmpty && st.processed.contains r.name) ||
         (!r.id.data.isEmpty && st.processed.contains r.id))) = true by
      rw [hreq]
      simp only [Bool.not_false, Bool.true_and]
      rw [h]; rfl)]
  · rw [if_pos (show (!r.hasAsterisk &&
        ((!r.name.data.isEmpty && st.processed.contains r.name) ||
         (!r.id.data.isEmpty && st.processed.contains r.id))) = true by
      rw [hreq]
      simp only [Bool.not_false, Bool.true_and]
      rw [h, Bool.or_true])]
  · by_cases hc : (!r.hasAsterisk &&
        ((!r.name.data.isEmpty && st.processed.contains r.name) ||
         (!r.id.data.isEmpty && st.processed.contains r.id))) = true
    · rw [if_pos hc]
    · rw [if_neg hc, if_pos (show (r.checked && !r.hasAsterisk) = true by rw [h, hreq]; rfl)]

lemma cbStep_required {st : SweepSt} {r : CBRec} (h : r.hasAsterisk = true) :
    cbStep st r = cbAttempt st r := by
  unfold cbStep
  simp [h]

lemma setCheckedAt_map_strip : ∀ (p : List CBElem) (j : Nat) (c : Bool),
    (setCheckedAt p j c).map stripCB = p.map stripCB
  | [], _, _ => rfl
  | _ :: rest, 0, c => by cases c <;> rfl
  | e :: rest, j + 1, c => by
    show stripCB e :: (setCheckedAt rest j c).map stripCB = stripCB e :: rest.map stripCB
    rw [setCheckedAt_map_strip rest j c]

lemma setCheckedAt_get?_ne : ∀ (p : List CBElem) (j j' : Nat) (c : Bool), j' ≠ j →
    (setCheckedAt p j c).get? j' = p.get? j'
  | [], _, _, _, _ => rfl
  | _ :: _, 0, 0, _, h => absurd rfl h
  | _ :: _, 0, _ + 1, _, _ => rfl
  | _ :: _, _ + 1, 0, _, _ => rfl
  | _ :: rest, j + 1, j' + 1, c, h =>
    setCheckedAt_get?_ne rest j j' c (fun hh => h (by rw [hh]))

lemma setCheckedAt_get?_eq : ∀ (p : List CBElem) (j : Nat) (c : Bool),
    (setCheckedAt p j c).get? j = (p.get? j).map
      (fun e => if c then { e with ariaChecked := true } else { e with checked := true })
  | [], _, _ => rfl
  | _ :: _, 0, _ => rfl
  | _ :: rest, j + 1, c => setCheckedAt_get?_eq rest j c

lemma cbStep_page (st : SweepSt) (r : CBRec) :
    (cbStep st r).page = st.page ∨
      ∃ j, (cbStep st r).page = setCheckedAt st.page j r.isCustom := by
  unfold cbStep
  split
  · exact Or.inl rfl
  · split
    · exact Or.inl rfl
    · unfold cbAttempt
      dsimp only
      repeat
        first
          | exact Or.inl rfl
          | exact Or.inr ⟨_, rfl⟩
          | split

lemma cbStep_map_strip (st : SweepSt) (r : CBRec) :
    (cbStep st r).page.map stripCB = st.page.map stripCB := by
  rcases cbStep_page st r with h | ⟨j, h⟩
  · rw [h]
  · rw [h, setCheckedAt_map_strip]

lemma cbStep_mono (st : SweepSt) (r : CBRec) (i : Nat)
    (h : ∃ e, st.page.get? i = some e ∧ elemChecked e = true) :
    ∃ e', (cbStep st r).page.get? i = some e' ∧ elemChecked e' = true := by
  rcases h with ⟨e, he, hch⟩
  rcases cbStep_page st r with h | ⟨j, h⟩
  · exact ⟨e, h ▸ he, hch⟩
  · rw [h]
    by_cases hij : i = j
    · subst hij
      rw [setCheckedAt_get?_eq, he]
      refine ⟨_, rfl, ?_⟩
      unfold elemChecked at hch ⊢
      cases hc : r.isCustom <;> cases hn : e.native <;> simp_all
    · exact ⟨e, by rw [setCheckedAt_get?_ne _ _ _ _ hij]; exact he, hch⟩

lemma foldl_cbStep_strip : ∀ (l : List CBRec) (st : SweepSt),
    ((l.foldl cbStep st).page).map stripCB = st.page.map stripCB
  | [], _ => rfl
  | r :: l, st => by
    rw [List.foldl_cons, foldl_cbStep_strip l (cbStep st r), cbStep_map_strip]

lemma foldl_cbStep_mono : ∀ (l : List CBRec) (st : SweepSt) (i : Nat),
    (∃ e, st.page.get? i = some e ∧ elemChecked e = true) →
    ∃ e', (l.foldl cbStep st).page.get? i = some e' ∧ elemChecked e' = true
  | [], _, _, h => h
  | r :: l, st, i, h => by
    rw [List.foldl_cons]
    exact foldl_cbStep_mono l (cbStep st r) i (cbStep_mono st r i h)

lemma findIdxCB_unique : ∀ (p : List CBElem) (f : CBElem → Bool) (i : Nat) (e : CBElem),
    p.get? i = some e → f e = true →
    (∀ j e', p.get? j = some e' → f e' = true → j = i) →
    findIdxCB p f = some i := by
  intro p
  induction p with
  | nil => intro f i e hi _ _; exact absurd hi (by simp)
  | cons a rest ih =>
    intro f i e hi hf huniq
    cases i with
    | zero =>
      have ha : a = e := Option.some.inj hi
      unfold findIdxCB
      rw [if_pos (ha ▸ hf)]
    | succ i' =>
      have hrest : rest.get? i' = some e := hi
      cases hfa : f a with
      | true => exact absurd (huniq 0 a rfl hfa) (by simp)
      | false =>
        unfold findIdxCB
        rw [if_neg (by rw [hfa]; exact Bool.false_ne_true)]
        rw [ih f i' e hrest hf (fun j e' hj hf' => by
          have hji : j + 1 = i' + 1 := huniq (j + 1) e' hj hf'
          omega)]
        rfl

lemma get?_strip_of_map_eq {p q : List CBElem}
    (h : p.map stripCB = q.map stripCB) (i : Nat) :
    (p.get? i).map stripCB = (q.get? i).map stripCB := by
  rw [← List.get?_map, ← List.get?_map, h]

lemma findIdxCB_strip_congr (g : String × String × Bool × Bool → Bool) :
    ∀ (p q : List CBElem), p.map stripCB = q.map stripCB →
      findIdxCB p (fun e => g (stripCB e)) = findIdxCB q (fun e => g (stripCB e))
  | [], [], _ => rfl
  | [], _ :: _, h => by simp at h
  | _ :: _, [], h => by simp at h
  | a :: p, b :: q, h => by
    simp only [List.map_cons, List.cons.injEq] at h
    unfold findIdxCB
    dsimp only
    rw [h.1, findIdxCB_strip_congr g p q h.2]

/-- Once the skip rules are passed, an attempt whose first selector is
the id, resolving to a visible element, performs the check write at that
index (required records take every `or is_required` branch). -/
lemma cbAttempt_hit (st : SweepSt) (r : CBRec) (i : Nat) (e1 : CBElem)
    (hidne : r.id.data.isEmpty = false)
    (hres : resolveCBSelector st.page true r.id = some i)
    (hget : st.page.get? i = some e1)
    (hvis : e1.visible = true)
    (hreq : r.hasAsterisk = true) :
    (cbAttempt st r).page = setCheckedAt st.page i r.isCustom := by
  have hget' : st.page[i]? = some e1 := by
    rw [← List.get?_eq_getElem?]; exact hget
  simp [cbAttempt, hidne, hres, hget', hvis, hreq]

/-- A visible required checkbox whose nonempty id occurs at exactly one
index of the page ends up checked after the sweep. -/
lemma sweep_checks_required (page : List CBElem) (processed : List String)
    (i : Nat) (e : CBElem)
    (hi : page.get? i = some e)
    (hvis : e.visible = true)
    (hid : e.id.data.isEmpty = false)
    (hast : pyIn "*" e.lbl = true ∨ e.nearTextHasAsterisk = true)
    (huniq : ∀ j e', page.get? j = some e' → e'.id = e.id → j = i) :
    ∃ e', (checkAllCheckboxes page processed).page.get? i = some e' ∧
      elemChecked e' = true := by
  have hreq : (harvestRec e).hasAsterisk = true := by
    show (pyIn "*" e.lbl || e.nearTextHasAsterisk) = true
    rcases hast with h | h <;> simp [h]
  have hmem : harvestRec e ∈ harvestCheckboxes page := by
    unfold harvestCheckboxes
    exact List.mem_map.mpr ⟨e, List.mem_filter.mpr ⟨List.get?_mem hi, hvis⟩, rfl⟩
  obtain ⟨l1, l2, hsplit⟩ := List.append_of_mem (mem_cbSort hmem)
  unfold checkAllCheckboxes
  rw [hsplit, List.foldl_append, List.foldl_cons]
  have hstrip : ((l1.foldl cbStep
      { page := page, processed := processed, count := 0 }).page).map stripCB =
      page.map stripCB := foldl_cbStep_strip l1 _
  set st1 := l1.foldl cbStep { page := page, processed := processed, count := 0 } with hst1
  have hget1 : (st1.page.get? i).map stripCB = some (stripCB e) := by
    rw [get?_strip_of_map_eq hstrip i, hi]; rfl
  obtain ⟨e1, he1, hstripe⟩ : ∃ e1, st1.page.get? i = some e1 ∧ stripCB e1 = stripCB e := by
    cases hg : st1.page.get? i with
    | none => rw [hg] at hget1; exact absurd hget1 (by simp)
    | some x =>
      rw [hg] at hget1
      exact ⟨x, rfl, Option.some.inj hget1⟩
  have hvis1 : e1.visible = e.visible := congrArg (fun s => s.2.2.1) hstripe
  have hnat1 : e1.native = e.native := congrArg (fun s => s.2.2.2) hstripe
  have hres : resolveCBSelector st1.page true e.id = some i := by
    have hcongr := findIdxCB_strip_congr
        (fun s => if (true : Bool) then s.2.1 == e.id else s.1 == e.id) st1.page page hstrip
    refine Eq.trans ?_ (Eq.trans hcongr ?_)
    · rfl
    · exact findIdxCB_unique page _ i e hi (by simp [stripCB])
        (fun j e' hj hf => huniq j e' hj (by simpa [stripCB] using hf))
  rw [cbStep_required hreq]
  have hpage2 := cbAttempt_hit st1 (harvestRec e) i e1 hid hres he1
    (hvis1.trans hvis) hreq
  refine foldl_cbStep_mono l2 _ i
    ⟨(if (!e.native : Bool) then { e1 with ariaChecked := true }
      else { e1 with checked := true }), ?_, ?_⟩
  · rw [hpage2, setCheckedAt_get?_eq, he1]
    rfl
  · unfold elemChecked
    cases hn : e.native <;> simp [hn, hnat1]

/-- Counterexample to C4's last sentence: two same-named checkboxes
without ids, the second one required (label `"I agree *"`) and initially
unchecked.  The sweep processes the required record first, but its only
selector is `input[name="cb"]`, whose `.first` match is the
*non-required* first checkbox; that one gets checked and `"cb"` enters
the processed set, so the required checkbox's own record is skipped and
it ends unchecked. -/
theorem claim_C4_counterexample :
    pyIn "*" "I agree *" = true ∧
    elemChecked { nm := "cb", lbl := "I agree *" } = false ∧
    (checkAllCheckboxes
        [{ nm := "cb", lbl := "I agree" }, { nm := "cb", lbl := "I agree *" }]
        []).page.map elemChecked = [true, false] := by
  refine ⟨by decide, rfl, by decide⟩

/-- C4 (amended): (1) the sort places every required record before every
non-required one; (2) a non-required record that is already processed
(by name or id) or already checked is skipped, leaving the state
unchanged; (3) the skip rules are bypassed for required records, which
always reach the attempt; (4) a visible required checkbox whose nonempty
id occurs at exactly one page index ends up checked after the sweep.
The claim's final sentence (two same-named checkboxes, required one
always checked) holds only under the unique-id proviso of (4): with
name-only selectors the `.first` match can hit the wrong checkbox
(`claim_C4_counterexample`). -/
theorem claim_C4 :
    (∀ l : List CBRec,
        (cbSort l).Pairwise (fun a b => b.hasAsterisk = true → a.hasAsterisk = true)) ∧
    (∀ (st : SweepSt) (r : CBRec), r.hasAsterisk = false →
        ((!r.name.data.isEmpty && st.processed.contains r.name) = true ∨
         (!r.id.data.isEmpty && st.processed.contains r.id) = true ∨
         r.checked = true) →
        cbStep st r = st) ∧
    (∀ (st : SweepSt) (r : CBRec), r.hasAsterisk = true → cbStep st r = cbAttempt st r) ∧
    (∀ (page : List CBElem) (processed : List String) (i : Nat) (e : CBElem),
        page.get? i = some e → e.visible = true → e.id.data.isEmpty = false →
        (pyIn "*" e.lbl = true ∨ e.nearTextHasAsterisk = true) →
        (∀ j e', page.get? j = some e' → e'.id = e.id → j = i) →
        ∃ e', (checkAllCheckboxes page processed).page.get? i = some e' ∧
          elemChecked e' = true) :=
  ⟨pairwise_cbSort,
   fun _ _ h1 h2 => cbStep_skip h1 h2,
   fun _ _ h => cbStep_required h,
   sweep_checks_required⟩

/-- Witness for C4: the mirrored scenario in which the required checkbox
does carry a unique id — part (4) applied to a concrete two-checkbox
page shows the sweep checks it. -/
theorem claim_C4_witness :
    ∃ e', (checkAllCheckboxes
        [{ nm := "cb", lbl := "I agree" },
         { nm := "cb", id := "req1", lbl := "I agree *" }] []).page.get? 1 = some e' ∧
      elemChecked e' = true :=
  claim_C4.2.2.2
    [{ nm := "cb", lbl := "I agree" }, { nm := "cb", id := "req1", lbl := "I agree *" }]
    [] 1 { nm := "cb", id := "req1", lbl := "I agree *" }
    rfl rfl rfl (Or.inl (by decide))
    (fun j e' hj hid => by
      rcases j with _ | _ | j
      · have h0 : ({ nm := "cb", lbl := "I agree" } : CBElem) = e' := Option.some.inj hj
        rw [← h0] at hid
        exact absurd hid (by decide)
      · rfl
      · exact Option.noConfusion hj)

/-! ### C5 — file upload: absolute resolution and fail-fast -/

lemma foldl_slash_head : ∀ (l : List (List Char)) (a : List Char), a ≠ [] →
    (l.foldl (fun x c => x ++ '/' :: c) a).head? = a.head?
  | [], _, _ => rfl
  | c :: l, a, h => by
    rw [List.foldl_cons, foldl_slash_head l (a ++ '/' :: c) (by simp)]
    cases a with
    | nil => exact absurd rfl h
    | cons x xs => rfl

lemma isAbsPath_of_head {cs : List Char} (h : cs.head? = some '/') :
    isAbsPath ⟨cs⟩ = true := by
  cases cs with
  | nil => exact Option.noConfusion h
  | cons c t =>
    have hc : c = '/' := Option.some.inj h
    subst hc
    rfl

lemma isAbsPath_comps (comps : List (List Char)) :
    isAbsPath (if comps.isEmpty then ("/" : String)
      else ⟨comps.foldl (fun a c => a ++ '/' :: c) []⟩) = true := by
  cases comps with
  | nil => rfl
  | cons c l =>
    refine isAbsPath_of_head ?_
    rw [List.foldl_cons, foldl_slash_head l ([] ++ '/' :: c) (by simp)]
    rfl

lemma isAbsPath_normAbsPath (p : String) : isAbsPath (normAbsPath p) = true :=
  isAbsPath_comps _

lemma isAbsPath_posixResolve (cwd p : String) :
    isAbsPath (posixResolve cwd p) = true := by
  unfold posixResolve
  split <;> exact isAbsPath_normAbsPath _

lemma resolve_file_path_abs (filePath : String) (baseDir : Option String)
    (cwd fpp : String) (h : filePath.data.isEmpty = false) :
    isAbsPath (resolve_file_path filePath baseDir cwd fpp) = true := by
  by_cases ha : isAbsPath filePath = true
  · simp [resolve_file_path, h, ha]
  · simp only [resolve_file_path, h, Bool.false_eq_true, if_false, ha, ite_false]
    exact isAbsPath_posixResolve cwd _

lemma fileFill_missing (fs : String → Bool) (cwd baseDir : String)
    (selectors : List String) (filePath : String) (o : PageOracle) (s : MSt)
    (h : fs (resolve_file_path filePath (some baseDir) cwd baseDir) = false) :
    fileFill fs cwd baseDir selectors filePath o s = (Except.ok false, s) := by
  unfold fileFill
  rw [if_pos (show (!fs (resolve_file_path filePath (some baseDir) cwd baseDir)) = true by
    rw [h]; rfl)]
  rfl

/-- C5: (1) for every nonempty configured path, `resolve_file_path`
yields an absolute path (any base directory, any working directory);
(2) the relative path `"./resume.pdf"` against base directory
`"/base/dir"` resolves to `"/base/dir/resume.pdf"`; (3) when the
resolved file does not exist on the file system, `FileUploadFiller.fill`
returns `False` without raising and with the page state untouched — the
monadic state is returned exactly as received, so no page operation (in
particular no `set_input_files` and no click) is recorded. -/
theorem claim_C5 :
    (∀ (filePath : String) (baseDir : Option String) (cwd fpp : String),
        filePath.data.isEmpty = false →
        isAbsPath (resolve_file_path filePath baseDir cwd fpp) = true) ∧
    resolve_file_path "./resume.pdf" (some "/base/dir") "/cwd" "/pkg" =
      "/base/dir/resume.pdf" ∧
    (∀ (fs : String → Bool) (cwd baseDir : String) (selectors : List String)
        (filePath : String) (o : PageOracle) (s : MSt),
        fs (resolve_file_path filePath (some baseDir) cwd baseDir) = false →
        fileFill fs cwd baseDir selectors filePath o s = (Except.ok false, s)) :=
  ⟨resolve_file_path_abs, by decide, fileFill_missing⟩

/-- Witness for C5: both hypothetical parts applied at `"./resume.pdf"`
and at a concrete empty file system, all-raising page and fresh state. -/
theorem claim_C5_witness :
    isAbsPath (resolve_file_path "./resume.pdf" (some "/base/dir") "/cwd" "/pkg") = true ∧
    fileFill (fun _ => false) "/cwd" "/base" ["#file"] "resume.pdf" errOracle {} =
      (Except.ok false, {}) :=
  ⟨claim_C5.1 "./resume.pdf" (some "/base/dir") "/cwd" "/pkg" rfl,
   claim_C5.2.2 (fun _ => false) "/cwd" "/base" ["#file"] "resume.pdf" errOracle {} rfl⟩

/-! ### C2 — the common filler contract -/

/-- C2: every type-specific filler returns a boolean and never raises —
for every page oracle, monad state, selector-candidate list and value,
the run ends in `Except.ok` (text, select, date, radio, checkbox, file);
and on a page where every Playwright call raises (so every candidate
selector and every strategy is exhausted without a verified write), each
filler returns `false`. -/
theorem claim_C2 :
    (∀ (selectors : List String) (value : String),
        NoThrow (textFill selectors value)) ∧
    (∀ (selectors : List String) (value fieldName : String),
        NoThrow (selectFill selectors value fieldName)) ∧
    (∀ (fuel : Nat) (selectors : List String) (dateValue : String),
        NoThrow (dateFill fuel selectors dateValue)) ∧
    (∀ (nameSelector value fieldName fieldLabel : String) (locator : Option String),
        NoThrow (radioFill nameSelector value fieldName fieldLabel locator)) ∧
    (∀ (selectors : List String) (value : Bool),
        NoThrow (checkboxFill selectors value)) ∧
    (∀ (fs : String → Bool) (cwd baseDir : String) (selectors : List String)
        (filePath : String),
        NoThrow (fileFill fs cwd baseDir selectors filePath)) ∧
    ((textFill ["#t1", "#t2"] "v" errOracle {}).1 = Except.ok false ∧
     (selectFill ["#s1"] "Germany" "country" errOracle {}).1 = Except.ok false ∧
     (dateFill 1 ["#d"] "2024-01-05" errOracle {}).1 = Except.ok false ∧
     (radioFill "input[name=\"r\"]" "yes" "r" "R?" (some "#lbl") errOracle {}).1 =
       Except.ok false ∧
     (checkboxFill ["#cb1", "#cb2"] true errOracle {}).1 = Except.ok false ∧
     (fileFill (fun _ => true) "/cwd" "/base" ["#f"] "a.pdf" errOracle {}).1 =
       Except.ok false) :=
  ⟨noThrow_textFill, noThrow_selectFill, noThrow_dateFill, noThrow_radioFill,
   noThrow_checkboxFill, noThrow_fileFill,
   rfl, rfl, rfl, rfl, rfl, rfl⟩

/-! ### C1 — write verification -/

lemma bind_apply {α β : Type} (x : M α) (f : α → M β) (o : PageOracle) (s : MSt) :
    (x >>= f) o s = match x o s with
      | (Except.ok a, s1) => f a o s1
      | (Except.error e, s1) => (Except.error e, s1) := rfl

lemma pure_apply {α : Type} (a : α) (o : PageOracle) (s : MSt) :
    (pure a : M α) o s = (Except.ok a, s) := rfl

lemma step_prim {α β : Type} (channel : PageOracle → Nat → Except Unit α) (op : POp)
    {K : α → M β} {o : PageOracle} {s : MSt} {b : β} {s' : MSt}
    (h : (primOp channel op >>= K) o s = (Except.ok b, s')) :
    ∃ a s1, channel o s.idx = Except.ok a ∧ K a o s1 = (Except.ok b, s') := by
  rw [bind_apply] at h
  rw [show primOp channel op o s = (channel o s.idx,
      { s with idx := s.idx + 1, trace := s.trace ++ [op] }) from rfl] at h
  cases hu : channel o s.idx with
  | error e => rw [hu] at h; simp at h
  | ok a =>
    rw [hu] at h
    try dsimp only at h
    exact ⟨a, _, rfl, h⟩

lemma tryCatchM_none_ok_some {β : Type} (x : M (Option β)) (o : PageOracle)
    (s s' : MSt) (b : β)
    (h : tryCatchM x (pure none) o s = (Except.ok (some b), s')) :
    x o s = (Except.ok (some b), s') := by
  unfold tryCatchM at h
  cases hx : x o s with
  | mk res t =>
    rw [hx] at h
    cases res with
    | error e => dsimp only at h; rw [pure_apply] at h; simp at h
    | ok a => dsimp only at h; exact h

lemma firstSomeM_ok_some {α β : Type} (f : α → M (Option β)) :
    ∀ (l : List α) (o : PageOracle) (s : MSt) (b : β) (s' : MSt),
      firstSomeM f l o s = (Except.ok (some b), s') →
      ∃ x s0 s1, f x o s0 = (Except.ok (some b), s1) := by
  intro l
  induction l with
  | nil =>
    intro o s b s' h
    unfold firstSomeM at h
    rw [pure_apply] at h
    simp at h
  | cons x xs ih =>
    intro o s b s' h
    unfold firstSomeM at h
    rw [bind_apply] at h
    cases hf : f x o s with
    | mk res t =>
      rw [hf] at h
      cases res with
      | error e => dsimp only at h; simp at h
      | ok a =>
        try dsimp only at h
        cases a with
        | some c =>
          try dsimp only at h
          rw [pure_apply] at h
          injection h with h1 h2
          injection h1 with h1a
          injection h1a with h1b
          subst h1b
          exact ⟨x, s, t, hf⟩
        | none =>
          try dsimp only at h
          exact ih o t b s' h

/-- The text filler reports success only after an `input_value` re-read
whose response equals the value or contains it. -/
lemma textFillBody_verified (sel value : String) (o : PageOracle) (s s' : MSt)
    (h : textFillBody sel value o s = (Except.ok (some true), s')) :
    ∃ i r, o.strO i = Except.ok r ∧ (r == value || pyIn value r) = true := by
  unfold textFillBody at h
  obtain ⟨_, s1, _, h⟩ := step_prim _ _ h
  try dsimp only at h
  obtain ⟨n, s2, _, h⟩ := step_prim _ _ h
  try dsimp only at h
  by_cases hn : n > 0
  · rw [if_pos hn] at h
    obtain ⟨_, s3, _, h⟩ := step_prim _ _ h
    try dsimp only at h
    obtain ⟨_, s4, _, h⟩ := step_prim _ _ h
    try dsimp only at h
    obtain ⟨_, s5, _, h⟩ := step_prim _ _ h
    try dsimp only at h
    obtain ⟨_, s6, _, h⟩ := step_prim _ _ h
    try dsimp only at h
    obtain ⟨_, s7, _, h⟩ := step_prim _ _ h
    try dsimp only at h
    obtain ⟨_, s8, _, h⟩ := step_prim _ _ h
    try dsimp only at h
    obtain ⟨_, s9, _, h⟩ := step_prim _ _ h
    try dsimp only at h
    obtain ⟨_, s10, _, h⟩ := step_prim _ _ h
    try dsimp only at h
    obtain ⟨r1, s11, hr1, h⟩ := step_prim _ _ h
    try dsimp only at h
    cases hc : (r1 == value || pyIn value r1) with
    | true =>
      rw [if_pos hc] at h
      exact ⟨_, r1, hr1, hc⟩
    | false =>
      rw [if_neg (by simp [hc])] at h
      obtain ⟨_, s12, _, h⟩ := step_prim _ _ h
      try dsimp only at h
      obtain ⟨_, s13, _, h⟩ := step_prim _ _ h
      try dsimp only at h
      obtain ⟨r2, s14, hr2, h⟩ := step_prim _ _ h
      try dsimp only at h
      cases hc2 : (r2 == value || pyIn value r2) with
      | true =>
        rw [if_pos hc2] at h
        exact ⟨_, r2, hr2, hc2⟩
      | false =>
        rw [if_neg (by simp [hc2])] at h
        rw [pure_apply] at h
        simp at h
  · rw [if_neg hn] at h
    rw [pure_apply] at h
    simp at h

lemma textFill_verified (selectors : List String) (value : String)
    (o : PageOracle) (s s' : MSt)
    (h : textFill selectors value o s = (Except.ok true, s')) :
    ∃ i r, o.strO i = Except.ok r ∧ (r == value || pyIn value r) = true := by
  unfold textFill at h
  rw [bind_apply] at h
  cases hf : firstSomeM
      (fun sel => tryCatchM (textFillBody sel value) (pure none)) selectors o s with
  | mk res t =>
    rw [hf] at h
    cases res with
    | error e => dsimp only at h; simp at h
    | ok a =>
      try dsimp only at h
      rw [pure_apply] at h
      injection h with h1 h2
      injection h1 with h1a
      cases a with
      | none => exact absurd h1a (by simp)
      | some b =>
        have hb : b = true := by simpa using h1a
        subst hb
        obtain ⟨sel, s0, s1, hbody⟩ := firstSomeM_ok_some _ selectors o s true t hf
        exact textFillBody_verified sel value o s0 s1
          (tryCatchM_none_ok_some _ o s0 s1 true hbody)

/-- A page on which the checkbox calls succeed: one match per selector,
`is_checked` reads `false`, toggles succeed.  All other channels raise. -/
def cbOracle : PageOracle :=
  { unitO := fun _ => Except.ok ()
    boolO := fun _ => Except.ok false
    natO := fun _ => Except.ok 1
    strO := fun _ => Except.error ()
    optStrO := fun _ => Except.error ()
    optsO := fun _ => Except.error ()
    hsO := fun _ => Except.error ()
    natsO := fun _ => Except.error () }

/-- A page on which the text-filler calls succeed and `input_value`
reads back `"v"`. -/
def txtOracle : PageOracle :=
  { unitO := fun _ => Except.ok ()
    boolO := fun _ => Except.error ()
    natO := fun _ => Except.ok 1
    strO := fun _ => Except.ok "v"
    optStrO := fun _ => Except.error ()
    optsO := fun _ => Except.error ()
    hsO := fun _ => Except.error ()
    natsO := fun _ => Except.error () }

/-- Counterexample to C1: `CheckboxFieldFiller.fill` on an unchecked
checkbox reports success with the trace ending in the `check` write —
the fourth and final page operation — so no re-read of the state follows
the write before the fill is marked successful. -/
theorem claim_C1_counterexample :
    checkboxFill ["#cb"] true cbOracle {} =
      (Except.ok true,
       { idx := 4
         trace := [{ kind := "wait_for_visible", loc := "#cb" },
                   { kind := "count", loc := "#cb" },
                   { kind := "is_checked", loc := "#cb" },
                   { kind := "check", loc := "#cb" }]
         oil := none }) := rfl

/-- C1 (amended): the *text* filler does satisfy the verified-write
contract — whenever `TextFieldFiller.fill` returns `True`, some
`input_value` re-read response `r` equalled the value or contained it
(`current_value == value or value in current_value`).  The claim's
universal form over all fillers is refuted by `claim_C1_counterexample`:
the checkbox filler reports success with the write as the last page
operation. -/
theorem claim_C1 (selectors : List String) (value : String)
    (o : PageOracle) (s s' : MSt)
    (h : textFill selectors value o s = (Except.ok true, s')) :
    ∃ i r, o.strO i = Except.ok r ∧ (r == value || pyIn value r) = true :=
  textFill_verified selectors value o s s' h

/-- Witness for C1: a concrete successful text fill, whose verifying
re-read is produced by the theorem. -/
theorem claim_C1_witness :
    ∃ i r, txtOracle.strO i = Except.ok r ∧ (r == "v" || pyIn "v" r) = true :=
  claim_C1 ["#t"] "v" txtOracle {} _ rfl

end AutoForm
